import Mathlib

/-!
Verification of the routerman CLI action-tree engine (`src/cli/actions.go`).

The Go source is shallowly embedded: the mutable `Context` map, the store and
router collaborators, terminal I/O and the recursive menu interpreter become
pure Lean functions over an explicit `Env` state.  Terminal and collaborator
I/O is made observable through an event trace (`Env.out`); the operator's
input stream is a list of tokens (`Env.inputs`).  Loops in the Go code (which
block on operator input) are embedded with an explicit fuel parameter; fuel
exhaustion is reported through the distinguished error `Err.fuel`, which no
theorem below treats as a program behaviour.

Collaborators that live outside `src/` (the `storage` package of this
repository and the helper readers `GetInput`/`GetChoice`/`GetCharChoice`/
`GetIntInput` from the `cli` package, plus the external `tplinkapi` module)
are modelled from the spec, as documented on each of those definitions.
-/

namespace Routerman

/-- Errors of the engine.  `ErrInvalidChoice` and `ErrInvalidInput` from the Go
source are the constructors `invalidChoice` and `invalidInput`; collaborator
I/O failure is `io`; `notFound` is the store's missing-record error; `msg`
covers the ad-hoc `fmt.Errorf` errors; `fuel` marks fuel exhaustion of the
embedding (an artefact, not a program behaviour). -/
inductive Err where
  | invalidChoice
  | invalidInput
  | io
  | notFound
  | fuel
  | msg (s : String)
  deriving DecidableEq

/-- `type Navigation int` with `NEXT`, `BACK`, `REPEAT` (actions.go lines 21-27). -/
inductive Navigation where
  | NEXT
  | BACK
  | REPEAT
  deriving DecidableEq

/-- Observable events of a run: prompts and prints to the terminal, table
rendering, the interpreter writing the quit flag, and store-collaborator
calls (tagged by operation name and integer argument). -/
inductive Event where
  | prompt (msg : String)
  | print (msg : String)
  | render (rows : List (List String))
  | setQuit
  | storeCall (op : String) (arg : Int)
  deriving DecidableEq

/-- Association-list update with overwrite: the Go map assignment `ctx[k] = v`. -/
def setList : List (String × Int) → String → Int → List (String × Int)
  | [], k, v => [(k, v)]
  | (k1, v1) :: rest, k, v =>
    if k1 = k then (k, v) :: rest else (k1, v1) :: setList rest k v

/-- Association-list deletion: the Go built-in `delete(ctx, k)` removes the
key entirely. -/
def eraseList (l : List (String × Int)) (k : String) : List (String × Int) :=
  l.filter (fun p => p.1 != k)

/-- Association-list lookup: the Go comma-ok map read `v, ok := ctx[k]`. -/
def lookupList : List (String × Int) → String → Option Int
  | [], _ => none
  | (k1, v1) :: rest, k => if k1 = k then some v1 else lookupList rest k

/-- `type Context map[string]int` (actions.go line 29), embedded as an
association list with map semantics. -/
structure Context where
  entries : List (String × Int)
  deriving DecidableEq

def Context.set (ctx : Context) (k : String) (v : Int) : Context :=
  ⟨setList ctx.entries k v⟩

def Context.erase (ctx : Context) (k : String) : Context :=
  ⟨eraseList ctx.entries k⟩

def Context.lookup (ctx : Context) (k : String) : Option Int :=
  lookupList ctx.entries k

/-- `func QuitProgram(ctx Context) bool` (actions.go lines 1094-1097):
`quit := ctx["quit"]; return quit > 0` — a missing key reads as the zero value. -/
def QuitProgram (ctx : Context) : Bool :=
  (ctx.lookup "quit").getD 0 > 0

/-- `storage.User` record, as consumed by the engine. -/
structure StUser where
  Id : Int
  Name : String
  deriving DecidableEq

/-- `storage.Device` record, as consumed by the engine. -/
structure StDevice where
  Id : Int
  UserId : Int
  Mac : String
  Alias : String
  deriving DecidableEq

/-- `storage.BandwidthSlot` record, as consumed by the engine. -/
structure StSlot where
  Id : Int
  UserId : Int
  RemoteId : Int
  deriving DecidableEq

/-- Modelled from the spec: the state of the record store collaborator
(the `storage` package is part of this repository but not under `src/`; §6 of
the spec gives only its CRUD interface).  `failOps` is a failure-injection
schedule: an operation whose tag is listed fails with an I/O error, modelling
the spec's "any I/O error from the store". -/
structure DBState where
  users : List StUser
  devices : List StDevice
  slots : List StSlot
  nextId : Int
  failOps : List String
  deriving DecidableEq

def DBState.fails (db : DBState) (op : String) : Bool :=
  db.failOps.contains op

/-- The session state threaded through every behavior and interpreter frame:
the shared mutable `Context`, the store state, the operator's pending input
tokens, and the trace of observable events so far. -/
structure Env where
  ctx : Context
  db : DBState
  inputs : List String
  out : List Event
  deriving DecidableEq

def Env.emit (env : Env) (e : Event) : Env :=
  { env with out := env.out ++ [e] }

def Env.print (env : Env) (m : String) : Env :=
  env.emit (.print m)

def Env.prompt (env : Env) (m : String) : Env :=
  env.emit (.prompt m)

def Env.render (env : Env) (rows : List (List String)) : Env :=
  env.emit (.render rows)

/-- Modelled from the spec: `GetInput` (cli helper not under `src/`) reads one
line from the terminal; an exhausted input stream stands for a terminal read
failure (§6: line-oriented terminal I/O surface). -/
def GetInput (env : Env) : Env × Except Err String :=
  match env.inputs with
  | [] => (env, .error .io)
  | tok :: rest => ({ env with inputs := rest }, .ok tok)

/-- Decimal digit accumulator for the token parser. -/
def digitsToNat : List Char → Nat → Option Nat
  | [], acc => some acc
  | c :: rest, acc =>
    if c.isDigit then digitsToNat rest (acc * 10 + (c.toNat - 48)) else none

/-- Parse a token as a decimal natural number, `none` on empty or non-numeric. -/
def parseNat? (s : String) : Option Nat :=
  match s.data with
  | [] => none
  | l => digitsToNat l 0

/-- Modelled from the spec: `GetChoice(choice, n)` (cli helper not under
`src/`) parses a row-selection token as a 1-based index into the current page;
a non-numeric token or an index outside `[1, n]` is the invalid-choice
condition (§4.3); on success it returns the 0-based position. -/
def GetChoice (choice : String) (n : Nat) : Except Err Nat :=
  match parseNat? choice with
  | none => .error .invalidChoice
  | some i => if 1 ≤ i ∧ i ≤ n then .ok (i - 1) else .error .invalidChoice

def ExitChoice : Nat := 99

def QuitChoice : Nat := 999

/-- Modelled from the spec: `GetChoiceInput` (cli helper not under `src/`)
parses a menu choice into a 0-based index, the synthetic exit-this-level
sentinel `ExitChoice`, or the quit-everything sentinel `QuitChoice` (§4.2
step 3b); parse failures are invalid-input, out-of-range numbers
invalid-choice. -/
def GetChoiceInput (tok : String) (n : Nat) : Except Err Nat :=
  if tok = "B" then .ok ExitChoice
  else if tok = "Q" then .ok QuitChoice
  else
    match parseNat? tok with
    | none => .error .invalidInput
    | some i => if 1 ≤ i ∧ i ≤ n then .ok (i - 1) else .error .invalidChoice

/-- Modelled from the spec: `GetCharChoice` (cli helper not under `src/`)
reads one token and accepts it only if it belongs to the allowed set
(§6: read-one-of-a-restricted-character-set). -/
def GetCharChoice (env : Env) (allowed : List String) : Env × Except Err String :=
  match env.inputs with
  | [] => (env, .error .io)
  | tok :: rest =>
    if allowed.contains tok then ({ env with inputs := rest }, .ok tok)
    else ({ env with inputs := rest }, .error .invalidChoice)

/-- Modelled from the spec: `GetIntInput` (cli helper not under `src/`) reads
an integer with a default used for empty input (§6:
read-an-integer-with-default). -/
def GetIntInput (env : Env) (dflt : Int) : Env × Except Err Int :=
  match env.inputs with
  | [] => (env, .error .io)
  | tok :: rest =>
    let env := { env with inputs := rest }
    if tok = "" then (env, .ok dflt)
    else
      match parseNat? tok with
      | some i => (env, .ok (Int.ofNat i))
      | none => (env, .error .invalidInput)

def isHexDigit (c : Char) : Bool :=
  c.isDigit || (('A' ≤ c && c ≤ 'F') || ('a' ≤ c && c ≤ 'f'))

/-- Modelled from the spec: `IsValidMacAddress` (cli helper not under `src/`)
— colon-separated MAC format validation (§4.4: "valid MAC address"). -/
def IsValidMacAddress (s : String) : Bool :=
  let parts := s.splitOn ":"
  parts.length == 6 && parts.all (fun p => p.length == 2 && p.data.all isHexDigit)

/-- `tplinkapi`-side available bandwidth slot (`BwSlot` wrapper in the cli
package): only the address-range bounds the engine reads (§6). -/
structure BwSlot where
  MinAddress : String
  MaxAddress : String
  deriving DecidableEq

/-- `tplinkapi.BandwidthControlEntry`, as built and displayed by the engine. -/
structure BwEntry where
  Enabled : Bool
  StartIp : String
  EndIp : String
  UpMin : Int
  UpMax : Int
  DownMin : Int
  DownMax : Int
  deriving DecidableEq

/-- A `tplinkapi.ClientStatistics` entry, an external collaborator type (§6):
only the fields the engine reads (the client IP and MAC). -/
structure ClientStat where
  IP : String
  Mac : String
  deriving DecidableEq

/-- The router-control client and the `tplinkapi` IP helpers, an external
collaborator (§6): embedded as an abstract record of (pure) operations the
engine invokes. -/
structure RouterOps where
  getStatistics : Except Err (List ClientStat)
  getBwControlEntriesByList : List Int → Except Err (List BwEntry)
  getAvailableBandwidthSlots : Bool → Except Err (List BwSlot)
  getCapacity : BwSlot → Except Err Int
  getMaxIP : BwSlot → String → Int → Except Err String
  isValidIPv4 : String → Bool
  ip2Int : String → Except Err Nat
  addBwControlEntry : BwEntry → Except Err Int
  blockDevice : String → Option Err

/-- Modelled from the spec: `UserStore.ReadMany(pageSize, pageNumber)` —
ordered page of user records (§6), observable as a store call event. -/
def UserStore.ReadMany (env : Env) (pageSize pageNumber : Nat) :
    Env × Except Err (List StUser) :=
  let env := env.emit (.storeCall "userReadMany" (Int.ofNat pageNumber))
  if env.db.fails "userReadMany" then (env, .error .io)
  else (env, .ok ((env.db.users.drop (pageSize * (pageNumber - 1))).take pageSize))

/-- Modelled from the spec: `UserStore.Read(id)` — point read, `NotFound` when
the id does not resolve (§6). -/
def UserStore.Read (env : Env) (id : Int) : Env × Except Err StUser :=
  let env := env.emit (.storeCall "userRead" id)
  if env.db.fails "userRead" then (env, .error .io)
  else
    match env.db.users.find? (fun u => u.Id == id) with
    | some u => (env, .ok u)
    | none => (env, .error .notFound)

/-- Modelled from the spec: `UserStore.Delete(id)` (§6). -/
def UserStore.Delete (env : Env) (id : Int) : Env × Option Err :=
  let env := env.emit (.storeCall "userDelete" id)
  if env.db.fails "userDelete" then (env, some .io)
  else
    ({ env with db := { env.db with users := env.db.users.filter (fun u => u.Id != id) } },
      none)

/-- Modelled from the spec: `BandwidthSlotStore.DeleteByUserId(id)` (§6). -/
def SlotStore.DeleteByUserId (env : Env) (userId : Int) : Env × Option Err :=
  let env := env.emit (.storeCall "slotDeleteByUserId" userId)
  if env.db.fails "slotDeleteByUserId" then (env, some .io)
  else
    ({ env with db := { env.db with slots := env.db.slots.filter (fun s => s.UserId != userId) } },
      none)

/-- Modelled from the spec: `DeviceStore.DeleteByUserId(id)` (§6). -/
def DeviceStore.DeleteByUserId (env : Env) (userId : Int) : Env × Option Err :=
  let env := env.emit (.storeCall "deviceDeleteByUserId" userId)
  if env.db.fails "deviceDeleteByUserId" then (env, some .io)
  else
    ({ env with db := { env.db with devices := env.db.devices.filter (fun d => d.UserId != userId) } },
      none)

/-- Modelled from the spec: `BandwidthSlotStore.ReadManyByUserId` (§6). -/
def SlotStore.ReadManyByUserId (env : Env) (userId : Int) (pageSize pageNumber : Nat) :
    Env × Except Err (List StSlot) :=
  let env := env.emit (.storeCall "slotReadManyByUserId" userId)
  if env.db.fails "slotReadManyByUserId" then (env, .error .io)
  else
    (env, .ok (((env.db.slots.filter (fun s => s.UserId == userId)).drop
      (pageSize * (pageNumber - 1))).take pageSize))

/-- Modelled from the spec: `BandwidthSlotStore.Read(id)` — point read (§6). -/
def SlotStore.Read (env : Env) (id : Int) : Env × Except Err StSlot :=
  let env := env.emit (.storeCall "slotRead" id)
  if env.db.fails "slotRead" then (env, .error .io)
  else
    match env.db.slots.find? (fun s => s.Id == id) with
    | some s => (env, .ok s)
    | none => (env, .error .notFound)

/-- Modelled from the spec: `BandwidthSlotStore.Create` (§6); the store
assigns the next fresh id. -/
def SlotStore.Create (env : Env) (userId remoteId : Int) : Env × Option Err :=
  let env := env.emit (.storeCall "slotCreate" userId)
  if env.db.fails "slotCreate" then (env, some .io)
  else
    ({ env with db := { env.db with
        slots := env.db.slots ++ [⟨env.db.nextId, userId, remoteId⟩],
        nextId := env.db.nextId + 1 } },
      none)

/-- Modelled from the spec: `DeviceStore.ReadMany(pageSize, pageNumber)` (§6). -/
def DeviceStore.ReadMany (env : Env) (pageSize pageNumber : Nat) :
    Env × Except Err (List StDevice) :=
  let env := env.emit (.storeCall "deviceReadMany" (Int.ofNat pageNumber))
  if env.db.fails "deviceReadMany" then (env, .error .io)
  else (env, .ok ((env.db.devices.drop (pageSize * (pageNumber - 1))).take pageSize))

/-- Modelled from the spec: `DeviceStore.ReadManyByUserId` (§6). -/
def DeviceStore.ReadManyByUserId (env : Env) (userId : Int) (pageSize pageNumber : Nat) :
    Env × Except Err (List StDevice) :=
  let env := env.emit (.storeCall "deviceReadManyByUserId" userId)
  if env.db.fails "deviceReadManyByUserId" then (env, .error .io)
  else
    (env, .ok (((env.db.devices.filter (fun d => d.UserId == userId)).drop
      (pageSize * (pageNumber - 1))).take pageSize))

/-- Modelled from the spec: `DeviceStore.ReadManyByMac(macAddresses)` — the
registered devices whose MAC is in the given list (§6). -/
def DeviceStore.ReadManyByMac (env : Env) (macs : List String) :
    Env × Except Err (List StDevice) :=
  let env := env.emit (.storeCall "deviceReadManyByMac" 0)
  if env.db.fails "deviceReadManyByMac" then (env, .error .io)
  else (env, .ok (env.db.devices.filter (fun d => macs.contains d.Mac)))

/-- The selection loop of `ActionListUsers` (actions.go lines 100-182).
Fuel counts loop iterations; the loop-local variables `pageNumber`,
`pageSize`, `showList`, `users` are parameters.  The render phase either
returns from the behavior (`Sum.inl`) or reaches the prompt with the page to
select from (`Sum.inr`), mirroring Go's fall-through. -/
def listUsersLoop : Nat → Env → Nat → Nat → Bool → List StUser →
    Env × Navigation × Option Err
  | 0, env, _, _, _, _ => (env, .NEXT, some .fuel)
  | f + 1, env, pageNumber, pageSize, showList, users0 =>
    let rendered : (Env × Navigation × Option Err) ⊕ (Env × List StUser) :=
      if showList then
        match UserStore.ReadMany env pageSize pageNumber with
        | (env, .error e) => .inl (env, .NEXT, some e)
        | (env, .ok users) =>
          if users = [] then
            if pageNumber = 1 then .inl (env.print "no users found", .REPEAT, none)
            else
              let env := env.print "no more users found"
              .inr (env.render (users.map (fun u => [u.Name])), users)
          else .inr (env.render (users.map (fun u => [u.Name])), users)
      else .inr (env.print "no more users found", users0)
    match rendered with
    | .inl r => r
    | .inr (env, users) =>
      let env := env.prompt "Select user by number or scroll with n(ext)/p(revious)/q(uit): "
      match GetInput env with
      | (env, .error e) => (env, .NEXT, some e)
      | (env, .ok choice) =>
        if choice = "n" then
          if users.length = pageSize then
            listUsersLoop f env (pageNumber + 1) pageSize true users
          else listUsersLoop f env pageNumber pageSize false users
        else if choice = "p" then
          if pageNumber > 1 then
            listUsersLoop f env (pageNumber - 1) pageSize true users
          else listUsersLoop f env pageNumber pageSize false users
        else if choice = "q" then (env, .REPEAT, none)
        else
          match GetChoice choice users.length with
          | .error _ =>
            listUsersLoop f (env.print "invalid choice. try again")
              pageNumber pageSize false users
          | .ok position =>
            let user := users.getD position ⟨0, ""⟩
            let env := env.print ("Selected user " ++ user.Name)
            match UserStore.Read env user.Id with
            | (env, .error e) => (env, .NEXT, some e)
            | (env, .ok _) =>
              ({ env with ctx := env.ctx.set "userId" user.Id }, .NEXT, none)

/-- `ActionListUsers`'s behavior (actions.go lines 100-182): pagination state
starts at page 1, page size 5, with a fetch scheduled and a nil page. -/
def ActionListUsersBody (f : Nat) (env : Env) : Env × Navigation × Option Err :=
  listUsersLoop f env 1 5 true []

/-- The selection loop of `ActionListUserBandwidthSlots` (actions.go lines
193-289).  Note the zero-row check returns `NEXT` at every page (lines
226-229): there is no `pageNumber == 1` distinction in this screen. -/
def listSlotsLoop (R : RouterOps) (userId : Int) :
    Nat → Env → Nat → Nat → Bool → List StSlot → Env × Navigation × Option Err
  | 0, env, _, _, _, _ => (env, .NEXT, some .fuel)
  | f + 1, env, pageNumber, pageSize, showList, slots0 =>
    let rendered : (Env × Navigation × Option Err) ⊕ (Env × List StSlot) :=
      if showList then
        match SlotStore.ReadManyByUserId env userId pageSize pageNumber with
        | (env, .error e) => .inl (env, .NEXT, some e)
        | (env, .ok slots) =>
          match R.getBwControlEntriesByList (slots.map (fun s => s.RemoteId)) with
          | .error e => .inl (env, .NEXT, some e)
          | .ok entries =>
            if slots = [] then .inl (env.print "no slots found", .NEXT, none)
            else
              .inr (env.render (entries.map (fun e =>
                [e.StartIp ++ " - " ++ e.EndIp ++ " Up:" ++ toString e.UpMin ++ "/" ++
                 toString e.UpMax ++ " Down:" ++ toString e.DownMin ++ "/" ++
                 toString e.DownMax ++ " [" ++ toString e.Enabled ++ "]"])), slots)
      else .inr (env.print "no more slots found", slots0)
    match rendered with
    | .inl r => r
    | .inr (env, slots) =>
      let env := env.prompt "Select slot by number or scroll with n(ext)/p(revious)/q(uit): "
      match GetInput env with
      | (env, .error e) => (env, .NEXT, some e)
      | (env, .ok choice) =>
        if choice = "n" then
          if slots.length = pageSize then
            listSlotsLoop R userId f env (pageNumber + 1) pageSize true slots
          else listSlotsLoop R userId f env pageNumber pageSize false slots
        else if choice = "p" then
          if pageNumber > 1 then
            listSlotsLoop R userId f env (pageNumber - 1) pageSize true slots
          else listSlotsLoop R userId f env pageNumber pageSize false slots
        else if choice = "q" then (env, .REPEAT, none)
        else
          match GetChoice choice slots.length with
          | .error _ =>
            listSlotsLoop R userId f (env.print "invalid choice. try again")
              pageNumber pageSize false slots
          | .ok position =>
            let slotId := (slots.getD position ⟨0, 0, 0⟩).Id
            match SlotStore.Read env slotId with
            | (env, .error e) => (env, .NEXT, some e)
            | (env, .ok _) =>
              ({ env with ctx := env.ctx.set "slotId" slotId }, .NEXT, none)

/-- `ActionListUserBandwidthSlots`'s behavior (actions.go lines 193-289):
requires `userId` in the context, then runs the slot selection loop. -/
def ActionListUserBandwidthSlotsBody (R : RouterOps) (f : Nat) (env : Env) :
    Env × Navigation × Option Err :=
  match env.ctx.lookup "userId" with
  | none => (env, .NEXT, some (.msg "user id not provided"))
  | some userId => listSlotsLoop R userId f (env.print "Listing user slots ") 1 5 true []

/-- Row projection of the devices list (actions.go lines 596-606): each row
shows the MAC and, when the owning user resolves, alias and user name; the
per-row `GetUser` point read (of the USER record, for display) threads the
store through. -/
def buildDeviceRows : Env → List StDevice → Env × List (List String)
  | env, [] => (env, [])
  | env, d :: rest =>
    match UserStore.Read env d.UserId with
    | (env, .error _) =>
      let r := buildDeviceRows env rest
      (r.1, [d.Mac, d.Alias] :: r.2)
    | (env, .ok u) =>
      let r := buildDeviceRows env rest
      (r.1, [d.Mac, d.Alias ++ "\t\t" ++ u.Name] :: r.2)

/-- The selection loop of `ActionListDevices` (actions.go lines 571-650).
The zero-row check returns `NEXT` at every page (lines 592-595); a selected
row's id is bound with NO point read of the device record (lines 637-647). -/
def listDevicesLoop (userId : Int) (userIdProvided : Bool) :
    Nat → Env → Nat → Nat → Bool → List StDevice → Env × Navigation × Option Err
  | 0, env, _, _, _, _ => (env, .NEXT, some .fuel)
  | f + 1, env, pageNumber, pageSize, showList, devices0 =>
    let rendered : (Env × Navigation × Option Err) ⊕ (Env × List StDevice) :=
      if showList then
        match (if userIdProvided && userId != 0 then
                 DeviceStore.ReadManyByUserId env userId pageSize pageNumber
               else DeviceStore.ReadMany env pageSize pageNumber) with
        | (env, .error e) => .inl (env, .NEXT, some e)
        | (env, .ok devices) =>
          if devices = [] then .inl (env.print "no devices found", .NEXT, none)
          else
            let r := buildDeviceRows env devices
            .inr (r.1.render r.2, devices)
      else .inr (env.print "no more users found", devices0)
    match rendered with
    | .inl r => r
    | .inr (env, devices) =>
      let env := env.prompt "Select device by number or scroll with n(ext)/p(revious)/q(uit): "
      match GetInput env with
      | (env, .error e) => (env, .NEXT, some e)
      | (env, .ok choice) =>
        if choice = "n" then
          if devices.length = pageSize then
            listDevicesLoop userId userIdProvided f env (pageNumber + 1) pageSize true devices
          else listDevicesLoop userId userIdProvided f env pageNumber pageSize false devices
        else if choice = "p" then
          if pageNumber > 1 then
            listDevicesLoop userId userIdProvided f env (pageNumber - 1) pageSize true devices
          else listDevicesLoop userId userIdProvided f env pageNumber pageSize false devices
        else if choice = "q" then (env, .NEXT, none)
        else
          match GetChoice choice devices.length with
          | .error _ =>
            listDevicesLoop userId userIdProvided f
              (env.print "invalid choice. try again") pageNumber pageSize false devices
          | .ok num =>
            let deviceId := (devices.getD num ⟨0, 0, "", ""⟩).Id
            ({ env with ctx := env.ctx.set "deviceId" deviceId }, .NEXT, none)

/-- `ActionListDevices`'s behavior (actions.go lines 571-650): the optional
`userId` comma-ok read happens once before the loop (line 579). -/
def ActionListDevicesBody (f : Nat) (env : Env) : Env × Navigation × Option Err :=
  listDevicesLoop ((env.ctx.lookup "userId").getD 0) (env.ctx.lookup "userId").isSome
    f env 1 5 true []

/-- Row projection of the connected-devices list (actions.go lines 695-707):
each statistic shows IP, MAC and, when the MAC resolves in `deviceMap`, the
device alias (plus the owner name if the per-row `GetUser` point read of the
user record succeeds), else "Unknown".  Go's `deviceMap[stat.Mac]` is a map
built by insertion over the fetched device list, so the LAST device with a
given MAC wins: embedded as `find?` over the reversed list. -/
def buildConnectedRows (deviceMap : List StDevice) : Env → List ClientStat →
    Env × List (List String)
  | env, [] => (env, [])
  | env, st :: rest =>
    match deviceMap.reverse.find? (fun d => d.Mac == st.Mac) with
    | none =>
      let r := buildConnectedRows deviceMap env rest
      (r.1, [st.IP, st.Mac, "Unknown"] :: r.2)
    | some device =>
      match UserStore.Read env device.UserId with
      | (env, .error _) =>
        let r := buildConnectedRows deviceMap env rest
        (r.1, [st.IP, st.Mac, device.Alias] :: r.2)
      | (env, .ok u) =>
        let r := buildConnectedRows deviceMap env rest
        (r.1, [st.IP, st.Mac, device.Alias ++ "\t\t" ++ u.Name] :: r.2)

/-- The scroll loop of `ActionShowConnectedDevices` (actions.go lines
684-744).  The statistics are fetched ONCE before the loop, so no fetch of
any kind happens inside it; `stats` and `deviceMap` are loop constants.  On
zero statistics, page 1 terminates with `NEXT` (lines 687-690) while a later
page prints "No more devices found" and falls through to rendering the empty
table (lines 691-693).  The `n`/`p`/`q` switch (lines 723-737) is the same
as the other list screens; the default arm prints "Invalid input" and
continues with `showList` UNCHANGED (lines 738-741). -/
def connectedLoop (stats : List ClientStat) (deviceMap : List StDevice) :
    Nat → Env → Nat → Nat → Bool → Env × Navigation × Option Err
  | 0, env, _, _, _ => (env, .NEXT, some .fuel)
  | f + 1, env, pageNumber, pageSize, showList =>
    let rendered : (Env × Navigation × Option Err) ⊕ Env :=
      if showList then
        if stats = [] then
          if pageNumber = 1 then .inl (env.print "No connected devices", .NEXT, none)
          else
            let env := env.print "No more devices found"
            let r := buildConnectedRows deviceMap env stats
            .inr (r.1.render r.2)
        else
          let r := buildConnectedRows deviceMap env stats
          .inr (r.1.render r.2)
      else .inr (env.print "No more devices found")
    match rendered with
    | .inl r => r
    | .inr env =>
      let env := env.prompt "Scroll with n(ext)/p(revious)/q(uit): "
      match GetInput env with
      | (env, .error e) => (env, .NEXT, some e)
      | (env, .ok choice) =>
        if choice = "n" then
          if stats.length = pageSize then
            connectedLoop stats deviceMap f env (pageNumber + 1) pageSize true
          else connectedLoop stats deviceMap f env pageNumber pageSize false
        else if choice = "p" then
          if pageNumber > 1 then
            connectedLoop stats deviceMap f env (pageNumber - 1) pageSize true
          else connectedLoop stats deviceMap f env pageNumber pageSize false
        else if choice = "q" then (env, .NEXT, none)
        else connectedLoop stats deviceMap f (env.print "Invalid input")
          pageNumber pageSize showList

/-- `ActionShowConnectedDevices`'s behavior (actions.go lines 653-746):
fetch the client statistics from the router, then the registered devices by
MAC, then scroll.  Go builds `macAddresses` with `make([]string, len(stats))`
FOLLOWED by `append` (lines 669-672), so the list starts with `len(stats)`
empty strings — embedded faithfully. -/
def ActionShowConnectedDevicesBody (R : RouterOps) (f : Nat) (env : Env) :
    Env × Navigation × Option Err :=
  match R.getStatistics with
  | .error e => (env, .NEXT, some e)
  | .ok stats =>
    let macAddresses := List.replicate stats.length "" ++ stats.map (fun s => s.Mac)
    match DeviceStore.ReadManyByMac env macAddresses with
    | (env, .error e) => (env, .NEXT, some e)
    | (env, .ok devices) => connectedLoop stats devices f env 1 5 true

/-- The `BOUNDS_LOOP` of `ActionAssignSlot` (actions.go lines 311-331):
prompt for y/n until a valid character is read; invalid-choice loops, any
other read error aborts. -/
def assignBounds : Nat → Env → Env × Except Err Bool
  | 0, env => (env, .error .fuel)
  | f + 1, env =>
    let env := env.prompt "Use DHCP IP bounds (y/n): "
    match GetCharChoice env ["y", "n"] with
    | (env, .error .invalidChoice) => assignBounds f env
    | (env, .error e) => (env, .error e)
    | (env, .ok tok) =>
      if tok = "y" then (env, .ok true)
      else if tok = "n" then (env, .ok false)
      else assignBounds f (env.print "Invalid choice. Try again")

/-- The slot-rendering loop of `ActionAssignSlot` (actions.go lines 349-355):
prints each slot with its capacity, aborting on a capacity error. -/
def printSlots (R : RouterOps) : Env → List BwSlot → Nat → Env × Option Err
  | env, [], _ => (env, none)
  | env, s :: rest, i =>
    match R.getCapacity s with
    | .error e => (env, some e)
    | .ok c =>
      printSlots R (env.print (toString (i + 1) ++ ": " ++ s.MinAddress ++ " - " ++
        s.MaxAddress ++ " [" ++ toString c ++ "]")) rest (i + 1)

/-- The main loop of `ActionAssignSlot` (actions.go lines 333-479).  Note:
an invalid row choice returns a fatal error (lines 384-387); a syntactically
invalid start IP returns `REPEAT` WITH an error (lines 399-401); an in-range
violation prints and returns `REPEAT` with nil error (lines 410-421). -/
def assignSlotLoop (R : RouterOps) (userId : Int) (useDhcpBounds : Bool) :
    Nat → Env → Nat → Nat → Bool → List BwSlot → Env × Navigation × Option Err
  | 0, env, _, _, _, _ => (env, .NEXT, some .fuel)
  | f + 1, env, pageNumber, pageSize, showList, slots0 =>
    let rendered : (Env × Navigation × Option Err) ⊕ (Env × List BwSlot) :=
      if showList then
        match R.getAvailableBandwidthSlots useDhcpBounds with
        | .error e => .inl (env, .NEXT, some e)
        | .ok slots =>
          if slots = [] then
            .inl (env.print "no slots found",
              (if pageNumber = 1 then .BACK else .NEXT), none)
          else
            match printSlots R env slots 0 with
            | (env, some e) => .inl (env, .NEXT, some e)
            | (env, none) => .inr (env, slots)
      else .inr (env.print "no more slots found", slots0)
    match rendered with
    | .inl r => r
    | .inr (env, slots) =>
      let env := env.prompt "Select slot by number or scroll with n(ext)/p(revious)/q(uit): "
      match GetInput env with
      | (env, .error e) => (env, .NEXT, some e)
      | (env, .ok choice) =>
        if choice = "n" then
          if slots.length = pageSize then
            assignSlotLoop R userId useDhcpBounds f env (pageNumber + 1) pageSize true slots
          else assignSlotLoop R userId useDhcpBounds f env pageNumber pageSize false slots
        else if choice = "p" then
          if pageNumber > 1 then
            assignSlotLoop R userId useDhcpBounds f env (pageNumber - 1) pageSize true slots
          else assignSlotLoop R userId useDhcpBounds f env pageNumber pageSize false slots
        else if choice = "q" then (env, .NEXT, none)
        else
          match GetChoice choice slots.length with
          | .error _ => (env, .NEXT, some (.msg "invalid choice"))
          | .ok position =>
            let slot := slots.getD position ⟨"", ""⟩
            let env := env.prompt ("Enter start IP [" ++ slot.MinAddress ++ "]: ")
            match GetInput env with
            | (env, .error e) => (env, .NEXT, some e)
            | (env, .ok startIPText) =>
              let ipStep : (Env × Navigation × Option Err) ⊕ (Env × String) :=
                if startIPText = "" then .inr (env, slot.MinAddress)
                else if !R.isValidIPv4 startIPText then
                  .inl (env, .REPEAT, some (.msg "invalid IPv4 address"))
                else
                  match R.ip2Int startIPText with
                  | .error e => .inl (env, .NEXT, some e)
                  | .ok startIPInt =>
                    match R.ip2Int slot.MinAddress with
                    | .error e => .inl (env, .NEXT, some e)
                    | .ok minIPInt =>
                      if startIPInt < minIPInt then
                        .inl (env.print "Given start IP is below range. Try again",
                          .REPEAT, none)
                      else
                        match R.ip2Int slot.MaxAddress with
                        | .error e => .inl (env, .NEXT, some e)
                        | .ok maxIPInt =>
                          if startIPInt > maxIPInt then
                            .inl (env.print "Given start IP is above range. Try again",
                              .REPEAT, none)
                          else .inr (env, startIPText)
              match ipStep with
              | .inl r => r
              | .inr (env, startIP) =>
                let capacity := match R.getCapacity slot with | .ok c => c | .error _ => 0
                let env := env.prompt ("Enter number of devices [Default " ++
                  toString capacity ++ "]: ")
                match GetIntInput env capacity with
                | (env, .error e) => (env, .NEXT, some e)
                | (env, .ok num) =>
                  if num > capacity ∨ num < 1 then (env, .NEXT, some (.msg "invalid number"))
                  else
                    match R.getMaxIP slot startIP num with
                    | .error e => (env, .NEXT, some e)
                    | .ok endIP =>
                      let env := env.prompt "Enter max download speed (kbps) [Default 1000]: "
                      match GetIntInput env 1000 with
                      | (env, .error e) => (env, .NEXT, some e)
                      | (env, .ok maxDown) =>
                        let env := env.prompt "Enter max upload speed (kbps) [Default 1000]: "
                        match GetIntInput env 1000 with
                        | (env, .error e) => (env, .NEXT, some e)
                        | (env, .ok maxUp) =>
                          match R.addBwControlEntry ⟨true, startIP, endIP, 50, maxUp, 50, maxDown⟩ with
                          | .error e => (env, .NEXT, some e)
                          | .ok id =>
                            match SlotStore.Create env userId id with
                            | (env, some e) => (env, .NEXT, some e)
                            | (env, none) =>
                              (env.print "Entry created successfully", .NEXT, none)

/-- `ActionAssignSlot`'s behavior (actions.go lines 295-480). -/
def ActionAssignSlotBody (R : RouterOps) (f : Nat) (env : Env) :
    Env × Navigation × Option Err :=
  match env.ctx.lookup "userId" with
  | none => (env, .NEXT, some (.msg "user id not provided"))
  | some userId =>
    match assignBounds f env with
    | (env, .error e) => (env, .NEXT, some e)
    | (env, .ok useDhcpBounds) => assignSlotLoop R userId useDhcpBounds f env 1 5 true []

/-- The delete sequence of `ActionDeregisterUser` (actions.go lines 491-504):
run each step in order, stopping at the first error; only after all steps
succeed print, unbind `userId` and return `BACK`. -/
def runSteps : List (Env → Int → Env × Option Err) → Env → Int →
    Env × Navigation × Option Err
  | [], env, _ =>
    let env := env.print "user deleted"
    ({ env with ctx := env.ctx.erase "userId" }, .BACK, none)
  | step :: rest, env, userId =>
    match step env userId with
    | (env, some e) => (env, .NEXT, some e)
    | (env, none) => runSteps rest env userId

/-- `ActionDeregisterUser`'s behavior (actions.go lines 486-505): the fixed
step order is bandwidth slots, then devices, then the user record. -/
def ActionDeregisterUserBody (env : Env) : Env × Navigation × Option Err :=
  match env.ctx.lookup "userId" with
  | none => (env, .NEXT, some (.msg "user id not provided"))
  | some userId =>
    runSteps [SlotStore.DeleteByUserId, DeviceStore.DeleteByUserId, UserStore.Delete]
      env userId

/-- `ActionBlockDevice`'s behavior (actions.go lines 960-974).  Note lines
963-965: a terminal read error is answered with `return NEXT, nil` — the
error is discarded, not propagated. -/
def ActionBlockDeviceBody (R : RouterOps) (env : Env) : Env × Navigation × Option Err :=
  let env := env.prompt "Enter devic mac address: "
  match GetInput env with
  | (env, .error _) => (env, .NEXT, none)
  | (env, .ok mac0) =>
    let mac := mac0.toUpper
    if !IsValidMacAddress mac then (env.print "invalid mac address", .NEXT, none)
    else (env, .NEXT, R.blockDevice mac)

/-- `type ActionFunc func(env *Env) (Navigation, error)` (actions.go line 35),
as a pure state transformer. -/
def ActionFunc := Env → Env × Navigation × Option Err

/-- `type Action struct` (actions.go lines 37-42).  `isQuit` embeds Go's
pointer identity test `action == ActionQuit` (lines 1020, 1055) as a flag on
the node. -/
inductive Action where
  | mk (name : String) (children : List Action) (requiresContext : List String)
      (action : Option ActionFunc) (isQuit : Bool)

def Action.name : Action → String
  | .mk n _ _ _ _ => n

def Action.children : Action → List Action
  | .mk _ c _ _ _ => c

def Action.requiresContext : Action → List String
  | .mk _ _ r _ _ => r

def Action.action : Action → Option ActionFunc
  | .mk _ _ _ a _ => a

def Action.isQuit : Action → Bool
  | .mk _ _ _ _ q => q

def dummyAction : Action := .mk "" [] [] none false

/-- `func (action Action) GetValidChildren(ctx Context) []*Action`
(actions.go lines 44-60): keep exactly the children all of whose required
context keys are bound (the `continue OUTER` loop is a filter; an empty
requirement list always passes). -/
def Action.GetValidChildren (a : Action) (ctx : Context) : List Action :=
  a.children.filter (fun c => c.requiresContext.all (fun k => (ctx.lookup k).isSome))

/-- The option list built before the loop of `RunMenuActions` (actions.go
lines 1013-1031): 1-based numeric labels, `Q` for the Quit node, and the
synthetic `B: Back` / `Q: Quit` lines when no Quit node is present. -/
def buildOptions (actions : List Action) : String :=
  let core := String.join (actions.enum.map (fun p =>
    (if p.2.isQuit then "Q" else toString (p.1 + 1)) ++ ": " ++ p.2.name ++ "\n"))
  if actions.any (fun a => a.isQuit) then core else core ++ "B: Back\nQ: Quit\n"

/-- Outcome of the behavior-invocation step of one interpreter iteration
(actions.go lines 1060-1073): return from `RunMenuActions`, `continue` the
loop, or fall through to the children. -/
inductive StepRes where
  | ret (r : Env × Navigation × Option Err)
  | repeatLoop (env : Env)
  | fallthrough (env : Env)

/-- The interpreter loop of `RunMenuActions` (actions.go lines 1033-1091).
The recursive descent into valid children inlines the callee's quit-flag
entry check (`RunMenuActions` = quit check + `runLoop`). -/
def runLoop : Nat → Env → String → List Action → Env × Navigation × Option Err
  | 0, env, _, _ => (env, .NEXT, some .fuel)
  | f + 1, env, options, actions =>
    let env := env.prompt ("Choose an action: \n" ++ options ++ "\nChoice: ")
    match GetInput env with
    | (env, .error e) => (env, .NEXT, some e)
    | (env, .ok tok) =>
      match GetChoiceInput tok actions.length with
      | .error e =>
        if e = .invalidChoice ∨ e = .invalidInput then
          runLoop f (env.print "try again") options actions
        else (env, .NEXT, some e)
      | .ok choice =>
        if choice = ExitChoice then (env, .NEXT, none)
        else if choice = QuitChoice then
          (({ env with ctx := env.ctx.set "quit" 1 }).emit .setQuit, .NEXT, none)
        else
          let action := actions.getD choice dummyAction
          if action.isQuit then
            (({ env with ctx := env.ctx.set "quit" 1 }).emit .setQuit, .NEXT, none)
          else
            let bres : StepRes :=
              match action.action with
              | none => .fallthrough env
              | some b =>
                match b env with
                | (env2, _, some e) => .ret (env2, .NEXT, some e)
                | (env2, .BACK, none) => .ret (env2, .NEXT, none)
                | (env2, .REPEAT, none) => .repeatLoop env2
                | (env2, .NEXT, none) => .fallthrough env2
            match bres with
            | .ret r => r
            | .repeatLoop env2 => runLoop f env2 options actions
            | .fallthrough env2 =>
              let children := action.GetValidChildren env2.ctx
              if children.isEmpty then runLoop f env2 options actions
              else
                match (if QuitProgram env2.ctx then (env2, Navigation.BACK, (none : Option Err))
                       else runLoop f env2 (buildOptions children) children) with
                | (env3, nav2, err2) =>
                  if QuitProgram env3.ctx then (env3, .NEXT, none)
                  else
                    match err2 with
                    | some e => (env3, .NEXT, some e)
                    | none =>
                      if nav2 = .BACK then (env3, .NEXT, none)
                      else runLoop f env3 options actions

/-- `func RunMenuActions(env *Env, actions []*Action) (Navigation, error)`
(actions.go lines 1008-1092): immediate `BACK` when the quit flag is set,
otherwise build the option list and run the loop. -/
def RunMenuActions (fuel : Nat) (env : Env) (actions : List Action) :
    Env × Navigation × Option Err :=
  if QuitProgram env.ctx then (env, .BACK, none)
  else runLoop fuel env (buildOptions actions) actions

/-- A behavior is quit-neutral when it never touches the quit flag and only
appends to the trace, never emitting the interpreter's `setQuit` marker.
Every behavior of this program is quit-neutral: the quit flag is written only
inside `RunMenuActions` itself (actions.go lines 1050, 1056). -/
def BehaviorOK (b : ActionFunc) : Prop :=
  ∀ env : Env, QuitProgram (b env).1.ctx = QuitProgram env.ctx ∧
    ∃ d, (b env).1.out = env.out ++ d ∧ Event.setQuit ∉ d

/-- All behaviors reachable in an action tree are quit-neutral. -/
inductive GoodAction : Action → Prop where
  | mk : ∀ (name : String) (children : List Action) (req : List String)
      (beh : Option ActionFunc) (isQ : Bool),
      (∀ b, beh = some b → BehaviorOK b) →
      (∀ c ∈ children, GoodAction c) →
      GoodAction (.mk name children req beh isQ)

/-! ### Concrete fixtures used by witnesses and counterexamples -/

/-- C1 fixture: a session with the quit flag already set. -/
def c1EnvQuit : Env := ⟨⟨[("quit", 1)]⟩, ⟨[], [], [], 0, []⟩, [], []⟩

/-- C1 fixture: a session whose operator chooses `Q` at the first prompt. -/
def c1Env : Env := ⟨⟨[]⟩, ⟨[], [], [], 0, []⟩, ["Q"], []⟩

/-- C1 fixture: a plain menu node with no behavior and no children. -/
def c1Action : Action := .mk "Manage users" [] [] none false

/-- An empty store with no injected failures. -/
def dbEmpty : DBState := ⟨[], [], [], 0, []⟩

/-- A store holding three users (Scenario A-like population). -/
def dbThreeUsers : DBState := ⟨[⟨1, "alice"⟩, ⟨2, "bob"⟩, ⟨3, "carol"⟩], [], [], 10, []⟩

/-- A concrete available slot for the assign-slot scenarios. -/
def slotA : BwSlot := ⟨"192.168.0.10", "192.168.0.20"⟩

/-- A concrete router collaborator: one available slot `slotA`, a small
dotted-quad table for the IP helpers, no failures. -/
def routerOne : RouterOps where
  getStatistics := .ok []
  getBwControlEntriesByList := fun _ => .ok []
  getAvailableBandwidthSlots := fun _ => .ok [slotA]
  getCapacity := fun _ => .ok 5
  getMaxIP := fun _ _ _ => .ok "192.168.0.15"
  isValidIPv4 := fun s => s = "192.168.0.5" || s = "192.168.0.12"
  ip2Int := fun s =>
    if s = "192.168.0.5" then .ok 5
    else if s = "192.168.0.10" then .ok 10
    else if s = "192.168.0.12" then .ok 12
    else if s = "192.168.0.20" then .ok 20
    else .error .io
  addBwControlEntry := fun _ => .ok 77
  blockDevice := fun _ => none

/-- C2 fixture: an ungated child. -/
def c2Child0 : Action := .mk "Register a user" [] [] none false

/-- C2 fixture: a child gated on `userId`. -/
def c2Child1 : Action := .mk "List user bandwidth slots" [] ["userId"] none false

/-- C2 fixture: the parent node. -/
def c2Parent : Action := .mk "List users" [c2Child0, c2Child1] [] none false

/-- C2 fixture: a context binding `userId`. -/
def c2Ctx2 : Context := Context.set ⟨[]⟩ "userId" 1

/-- C3 fixture: a session with an exhausted input stream (the terminal read
fails). -/
def c3Env : Env := ⟨⟨[]⟩, dbEmpty, [], []⟩

/-- C4 fixture, Scenario C: one user owning two bandwidth slots and one
device; the device delete is injected to fail. -/
def c4Db : DBState :=
  ⟨[⟨1, "alice"⟩], [⟨7, 1, "AA:BB:CC:DD:EE:FF", "laptop"⟩], [⟨21, 1, 31⟩, ⟨22, 1, 32⟩],
    100, ["deviceDeleteByUserId"]⟩

/-- C4 fixture: session with `userId` selected. -/
def c4Env : Env := ⟨⟨[("userId", 1)]⟩, c4Db, [], []⟩

/-- C4 fixture: same session with no injected failures. -/
def c4EnvOk : Env := ⟨⟨[("userId", 1)]⟩, ⟨c4Db.users, c4Db.devices, c4Db.slots, 100, []⟩, [], []⟩

/-- C7 fixture: user 1 owns exactly five bandwidth slots, so page 1 is full
and page 2 is empty. -/
def c7Db : DBState :=
  ⟨[⟨1, "alice"⟩], [], [⟨21, 1, 31⟩, ⟨22, 1, 32⟩, ⟨23, 1, 33⟩, ⟨24, 1, 34⟩, ⟨25, 1, 35⟩],
    100, []⟩

/-- C7 fixture: session scrolled forward once from the full first page. -/
def c7Env : Env := ⟨⟨[("userId", 1)]⟩, c7Db, ["n"], []⟩

/-- C7 fixture: a session with three users and no further input than quitting
the screen after an empty page-2 fetch. -/
def c7EnvUsers : Env := ⟨⟨[]⟩, dbThreeUsers, ["q"], []⟩

/-- C8 fixture: a session about to send `n` with a 3-row page already shown
(page size 5). -/
def c8Env : Env := ⟨⟨[]⟩, dbThreeUsers, ["n"], []⟩

/-- C8 fixture: a session about to send `p` at page 1 of the slots screen. -/
def c8EnvSlots : Env := ⟨⟨[("userId", 1)]⟩, c4Db, ["p"], []⟩

/-- C6 fixture: an assign-slot session answering the bounds question and then
sending the out-of-range row index `7` against a one-slot page. -/
def c6Env : Env := ⟨⟨[("userId", 1)]⟩, dbEmpty, ["y", "7"], []⟩

/-- C6 fixture: the same session state as seen by the assign-slot selection
loop itself (bounds already answered). -/
def c6EnvLoop : Env := ⟨⟨[("userId", 1)]⟩, dbEmpty, ["7"], []⟩

/-- C6 fixture: the users screen about to receive the non-numeric token `x`. -/
def c6EnvU : Env := ⟨⟨[]⟩, dbThreeUsers, ["x"], []⟩

/-- C5 fixture: one registered device owned by user 1. -/
def c5Db : DBState := ⟨[⟨1, "alice"⟩], [⟨7, 1, "AA:BB:CC:DD:EE:FF", "lap"⟩], [], 50, []⟩

/-- C5 fixture: the devices screen about to receive the valid row token `1`. -/
def c5Env : Env := ⟨⟨[]⟩, c5Db, ["1"], []⟩

/-- C5 fixture: the users screen about to receive the valid row token `2`. -/
def c5EnvU : Env := ⟨⟨[]⟩, dbThreeUsers, ["2"], []⟩

/-- C9 fixture: an assign-slot session entering a well-formed start IP that
is numerically below the slot minimum (5 < 10). -/
def c9Env : Env := ⟨⟨[("userId", 1)]⟩, dbEmpty, ["y", "1", "192.168.0.5"], []⟩

/-- C10 fixture: an assign-slot session entering a start IP that fails IPv4
syntax validation. -/
def c10EnvIP : Env := ⟨⟨[("userId", 1)]⟩, dbEmpty, ["y", "1", "nonsense"], []⟩

/-- C10 fixture: a menu node whose behavior returns `REPEAT` together with a
non-nil error, as `ActionAssignSlot` does on a malformed start IP. -/
def c10Action : Action :=
  .mk "Assign bandwidth slot" [] []
    (some (fun env => (env, .REPEAT, some (.msg "invalid IPv4 address")))) false

/-- C10 fixture: a menu node whose behavior returns `REPEAT` with nil error,
as `ActionAssignSlot` does on an in-syntax but below-range start IP. -/
def c10ActionR : Action :=
  .mk "Assign bandwidth slot" [] [] (some (fun env => (env, .REPEAT, none))) false

/-- C10 fixture: a menu session about to choose entry 1. -/
def c10Env : Env := ⟨⟨[]⟩, dbEmpty, ["1"], []⟩

/-- C7 fixture: the devices screen over an empty device table. -/
def c7EnvDev : Env := ⟨⟨[]⟩, dbEmpty, [], []⟩

/-- C8 fixture: a session about to send `p` at page 1 of the devices
screen, with one registered device on the rendered page. -/
def c8EnvDev : Env := ⟨⟨[]⟩, c5Db, ["p"], []⟩

/-- C8 fixture: an assign-slot session about to send `n` with a one-slot
page shown. -/
def c8EnvAssign : Env := ⟨⟨[("userId", 1)]⟩, dbEmpty, ["n"], []⟩

/-- C8 fixture: a connected-devices session about to send `n`. -/
def c8EnvConn : Env := ⟨⟨[]⟩, dbEmpty, ["n"], []⟩

/-- C8 fixture: a single client statistic with no registered device. -/
def statOne : ClientStat := ⟨"192.168.0.9", "AA:BB:CC:DD:EE:00"⟩

end Routerman

namespace Routerman

/-! ### Helper lemmas about the context model -/

theorem lookupList_setList_self (l : List (String × Int)) (k : String) (v : Int) :
    lookupList (setList l k v) k = some v := by
  induction l with
  | nil => simp [setList, lookupList]
  | cons p rest ih =>
    obtain ⟨k1, v1⟩ := p
    by_cases h : k1 = k
    · simp [setList, h, lookupList]
    · simp [setList, h, lookupList, ih]

theorem lookupList_setList_ne (l : List (String × Int)) (k : String) (v : Int)
    (k2 : String) (h : k ≠ k2) :
    lookupList (setList l k v) k2 = lookupList l k2 := by
  induction l with
  | nil => simp [setList, lookupList, h]
  | cons p rest ih =>
    obtain ⟨k1, v1⟩ := p
    by_cases h1 : k1 = k
    · subst h1
      simp [setList, lookupList, h]
    · simp [setList, h1, lookupList, ih]

theorem lookupList_eraseList_self (l : List (String × Int)) (k : String) :
    lookupList (eraseList l k) k = none := by
  induction l with
  | nil => rfl
  | cons p rest ih =>
    obtain ⟨k1, v1⟩ := p
    by_cases h : k1 = k
    · subst h
      simpa [eraseList, List.filter_cons, lookupList] using ih
    · have hb : (k1 != k) = true := bne_iff_ne.mpr h
      simpa [eraseList, List.filter_cons, hb, lookupList, h] using ih

theorem Context.lookup_set_self (ctx : Context) (k : String) (v : Int) :
    (ctx.set k v).lookup k = some v :=
  lookupList_setList_self ctx.entries k v

theorem Context.lookup_set_ne (ctx : Context) (k : String) (v : Int) (k2 : String)
    (h : k ≠ k2) : (ctx.set k v).lookup k2 = ctx.lookup k2 :=
  lookupList_setList_ne ctx.entries k v k2 h

theorem Context.lookup_erase_self (ctx : Context) (k : String) :
    (ctx.erase k).lookup k = none :=
  lookupList_eraseList_self ctx.entries k

theorem quitProgram_set_quit (ctx : Context) : QuitProgram (ctx.set "quit" 1) = true := by
  simp [QuitProgram, Context.lookup_set_self]

/-! ### Claim C2 -/

/-- Claim C2: for every Action node and every Context, `GetValidChildren`
returns exactly the ordered subsequence of the node's children whose required
context keys are all present: it never returns a child with an absent
required key (soundness), it is a sublist of the children (order-preserving
subsequence), every child whose keys are all bound is returned
(completeness, which is how binding a missing key makes a filtered child
appear), and it is monotone under context growth.  It is a pure function of
the node and context, so it has no side effects by construction. -/
theorem getValidChildren_spec (a : Action) (ctx ctx2 : Context) :
    (∀ c ∈ a.GetValidChildren ctx, ∀ k ∈ c.requiresContext,
      (ctx.lookup k).isSome = true) ∧
    (a.GetValidChildren ctx).Sublist a.children ∧
    (∀ c ∈ a.children, (∀ k ∈ c.requiresContext, (ctx.lookup k).isSome = true) →
      c ∈ a.GetValidChildren ctx) ∧
    ((∀ k, (ctx.lookup k).isSome = true → (ctx2.lookup k).isSome = true) →
      ∀ c ∈ a.GetValidChildren ctx, c ∈ a.GetValidChildren ctx2) := by
  refine ⟨?_, ?_, ?_, ?_⟩
  · intro c hc k hk
    have hp := List.of_mem_filter hc
    exact List.all_eq_true.mp hp k hk
  · exact List.filter_sublist _
  · intro c hc hkeys
    exact List.mem_filter.mpr ⟨hc, List.all_eq_true.mpr hkeys⟩
  · intro hmono c hc
    have hmem := List.mem_of_mem_filter hc
    have hp := List.of_mem_filter hc
    refine List.mem_filter.mpr ⟨hmem, List.all_eq_true.mpr ?_⟩
    intro k hk
    exact hmono k (List.all_eq_true.mp hp k hk)

/-- Witness for C2 at concrete inputs: the `userId`-gated child is filtered
out under the empty context and appears once `userId` is bound; the result
is always a sublist of the children. -/
theorem getValidChildren_spec_witness :
    c2Child1 ∈ c2Parent.GetValidChildren c2Ctx2 ∧
    (c2Parent.GetValidChildren ⟨[]⟩).Sublist c2Parent.children := by
  constructor
  · refine (getValidChildren_spec c2Parent c2Ctx2 c2Ctx2).2.2.1 c2Child1 ?_ ?_
    · simp [c2Parent, Action.children]
    · intro k hk
      simp [c2Child1, Action.requiresContext] at hk
      subst hk
      decide
  · exact (getValidChildren_spec c2Parent ⟨[]⟩ c2Ctx2).2.1

/-! ### Claim C3 -/

/-- Claim C3 (refuting evidence, code bug): the claim says every I/O error
from a collaborator is propagated as a non-nil error and never converted to a
nil-error return; but `ActionBlockDevice` (actions.go lines 962-965) answers
a failing terminal read with `return NEXT, nil`, silently discarding the
error.  Here the read fails (`Err.io`), yet the behavior returns with error
component `none`. -/
theorem blockDevice_discards_read_error :
    (GetInput (c3Env.prompt "Enter devic mac address: ")).2 = .error .io ∧
    ActionBlockDeviceBody routerOne c3Env =
      (c3Env.prompt "Enter devic mac address: ", .NEXT, none) := by
  constructor
  · rfl
  · rfl

/-! ### Claim C4 -/

/-- Claim C4: `ActionDeregisterUser` attempts its deletes in the fixed order
slots, devices, user, stopping at the first failure and returning that error
with no rollback: (a) when all three steps succeed, the store calls happen in
order, `userId` is unbound and `BACK` is returned; (b) a slot-delete failure
returns the error with context and store unchanged; (c) a device-delete
failure (Scenario C) returns the error, the slot deletes stay committed, the
user record and all devices still exist, and `userId` remains bound; (d) a
user-delete failure returns the error with the user record still present and
`userId` still bound. -/
theorem deregisterUser_spec (env : Env) (userId : Int)
    (hbound : env.ctx.lookup "userId" = some userId) :
    ((env.db.fails "slotDeleteByUserId" = false ∧
      env.db.fails "deviceDeleteByUserId" = false ∧
      env.db.fails "userDelete" = false) →
      ∃ env3, ActionDeregisterUserBody env = (env3, .BACK, none) ∧
        env3.ctx.lookup "userId" = none ∧
        env3.out = env.out ++ [.storeCall "slotDeleteByUserId" userId,
          .storeCall "deviceDeleteByUserId" userId, .storeCall "userDelete" userId,
          .print "user deleted"]) ∧
    (env.db.fails "slotDeleteByUserId" = true →
      ∃ env3, ActionDeregisterUserBody env = (env3, .NEXT, some .io) ∧
        env3.ctx = env.ctx ∧ env3.db = env.db ∧
        env3.out = env.out ++ [.storeCall "slotDeleteByUserId" userId]) ∧
    ((env.db.fails "slotDeleteByUserId" = false ∧
      env.db.fails "deviceDeleteByUserId" = true) →
      ∃ env3, ActionDeregisterUserBody env = (env3, .NEXT, some .io) ∧
        env3.ctx = env.ctx ∧
        env3.db.users = env.db.users ∧
        env3.db.devices = env.db.devices ∧
        env3.db.slots = env.db.slots.filter (fun s => s.UserId != userId) ∧
        env3.out = env.out ++ [.storeCall "slotDeleteByUserId" userId,
          .storeCall "deviceDeleteByUserId" userId]) ∧
    ((env.db.fails "slotDeleteByUserId" = false ∧
      env.db.fails "deviceDeleteByUserId" = false ∧
      env.db.fails "userDelete" = true) →
      ∃ env3, ActionDeregisterUserBody env = (env3, .NEXT, some .io) ∧
        env3.ctx = env.ctx ∧ env3.db.users = env.db.users ∧
        env3.out = env.out ++ [.storeCall "slotDeleteByUserId" userId,
          .storeCall "deviceDeleteByUserId" userId, .storeCall "userDelete" userId]) := by
  obtain ⟨ctx, db, inputs, out⟩ := env
  obtain ⟨users, devices, slots, nextId, failOps⟩ := db
  simp only [DBState.fails] at *
  refine ⟨?_, ?_, ?_, ?_⟩
  · rintro ⟨h1, h2, h3⟩
    have hm1 : "slotDeleteByUserId" ∉ failOps := by simpa using h1
    have hm2 : "deviceDeleteByUserId" ∉ failOps := by simpa using h2
    have hm3 : "userDelete" ∉ failOps := by simpa using h3
    have heq : ActionDeregisterUserBody ⟨ctx, ⟨users, devices, slots, nextId, failOps⟩, inputs, out⟩ =
        (⟨ctx.erase "userId",
          ⟨users.filter (fun u => u.Id != userId), devices.filter (fun d => d.UserId != userId),
            slots.filter (fun s => s.UserId != userId), nextId, failOps⟩, inputs,
          out ++ [.storeCall "slotDeleteByUserId" userId, .storeCall "deviceDeleteByUserId" userId,
            .storeCall "userDelete" userId, .print "user deleted"]⟩, .BACK, none) := by
      simp [ActionDeregisterUserBody, hbound, runSteps, SlotStore.DeleteByUserId,
        DeviceStore.DeleteByUserId, UserStore.Delete, Env.emit, Env.print,
        DBState.fails, hm1, hm2, hm3]
    exact ⟨_, heq, Context.lookup_erase_self ctx "userId", rfl⟩
  · intro h1
    have hm1 : "slotDeleteByUserId" ∈ failOps := by simpa using h1
    have heq : ActionDeregisterUserBody ⟨ctx, ⟨users, devices, slots, nextId, failOps⟩, inputs, out⟩ =
        (⟨ctx, ⟨users, devices, slots, nextId, failOps⟩, inputs,
          out ++ [.storeCall "slotDeleteByUserId" userId]⟩, .NEXT, some .io) := by
      simp [ActionDeregisterUserBody, hbound, runSteps, SlotStore.DeleteByUserId,
        Env.emit, DBState.fails, hm1]
    exact ⟨_, heq, rfl, rfl, rfl⟩
  · rintro ⟨h1, h2⟩
    have hm1 : "slotDeleteByUserId" ∉ failOps := by simpa using h1
    have hm2 : "deviceDeleteByUserId" ∈ failOps := by simpa using h2
    have heq : ActionDeregisterUserBody ⟨ctx, ⟨users, devices, slots, nextId, failOps⟩, inputs, out⟩ =
        (⟨ctx, ⟨users, devices, slots.filter (fun s => s.UserId != userId), nextId, failOps⟩, inputs,
          out ++ [.storeCall "slotDeleteByUserId" userId,
            .storeCall "deviceDeleteByUserId" userId]⟩, .NEXT, some .io) := by
      simp [ActionDeregisterUserBody, hbound, runSteps, SlotStore.DeleteByUserId,
        DeviceStore.DeleteByUserId, Env.emit, DBState.fails, hm1, hm2]
    exact ⟨_, heq, rfl, rfl, rfl, rfl, rfl⟩
  · rintro ⟨h1, h2, h3⟩
    have hm1 : "slotDeleteByUserId" ∉ failOps := by simpa using h1
    have hm2 : "deviceDeleteByUserId" ∉ failOps := by simpa using h2
    have hm3 : "userDelete" ∈ failOps := by simpa using h3
    have heq : ActionDeregisterUserBody ⟨ctx, ⟨users, devices, slots, nextId, failOps⟩, inputs, out⟩ =
        (⟨ctx, ⟨users, devices.filter (fun d => d.UserId != userId),
            slots.filter (fun s => s.UserId != userId), nextId, failOps⟩, inputs,
          out ++ [.storeCall "slotDeleteByUserId" userId, .storeCall "deviceDeleteByUserId" userId,
            .storeCall "userDelete" userId]⟩, .NEXT, some .io) := by
      simp [ActionDeregisterUserBody, hbound, runSteps, SlotStore.DeleteByUserId,
        DeviceStore.DeleteByUserId, UserStore.Delete, Env.emit, DBState.fails,
        hm1, hm2, hm3]
    exact ⟨_, heq, rfl, rfl, rfl⟩

/-- Witness for C4 at Scenario C: a user with two slots and one device whose
device delete fails — the error is returned, the slot deletes stay committed,
the user record survives and `userId` stays bound; and the same session with
no failures deletes everything, unbinds `userId` and returns `BACK`. -/
theorem deregisterUser_spec_witness :
    (∃ env3, ActionDeregisterUserBody c4Env = (env3, .NEXT, some .io) ∧
      env3.ctx = c4Env.ctx ∧
      env3.db.users = c4Env.db.users ∧
      env3.db.devices = c4Env.db.devices ∧
      env3.db.slots = c4Env.db.slots.filter (fun s => s.UserId != 1) ∧
      env3.out = c4Env.out ++ [.storeCall "slotDeleteByUserId" 1,
        .storeCall "deviceDeleteByUserId" 1]) ∧
    (∃ env3, ActionDeregisterUserBody c4EnvOk = (env3, .BACK, none) ∧
      env3.ctx.lookup "userId" = none ∧
      env3.out = c4EnvOk.out ++ [.storeCall "slotDeleteByUserId" 1,
        .storeCall "deviceDeleteByUserId" 1, .storeCall "userDelete" 1,
        .print "user deleted"]) := by
  constructor
  · exact (deregisterUser_spec c4Env 1 (by decide)).2.2.1 (by decide)
  · exact (deregisterUser_spec c4EnvOk 1 (by decide)).1 (by decide)

/-! ### Claim C7 -/

/-- Claim C7 (refuting evidence): the claim says every paginated list screen
with a zero-row fetch at `pageNumber > 1` reports "no more results" and does
not terminate.  But the user-bandwidth-slots screen (actions.go lines
226-229) has no page-number case at all: here the operator scrolls forward
from a full page 1 of five slots, the page-2 fetch returns zero rows (two
`slotReadManyByUserId` calls in the trace), and the screen prints "no slots
found" and terminates, returning `(NEXT, nil)` with the input stream fully
consumed. -/
theorem slots_empty_page2_terminates :
    (ActionListUserBandwidthSlotsBody routerOne 5 c7Env).2 = (.NEXT, none) ∧
    ((ActionListUserBandwidthSlotsBody routerOne 5 c7Env).1.out.count
      (Event.storeCall "slotReadManyByUserId" 1)) = 2 ∧
    (ActionListUserBandwidthSlotsBody routerOne 5 c7Env).1.out.getLast? =
      some (.print "no slots found") ∧
    (ActionListUserBandwidthSlotsBody routerOne 5 c7Env).1.inputs = [] := by
  decide

/-- Claim C7 (amended): the users screen follows the claimed two-case shape —
(a) a zero-row fetch at page 1 reports "no users found" and terminates the
screen with `REPEAT`; (b) a zero-row fetch at page > 1 reports "no more users
found" and does not terminate: the screen renders the (now empty) table,
stays in the prompt state and processes the next token (here `q`).  (c) The
user-bandwidth-slots screen instead reports "no slots found" and terminates
with `NEXT` on a zero-row fetch at EVERY page number; (d)/(e) so does the
devices screen (actions.go lines 592-595), in both its fetch modes (all
devices, and filtered by the optionally-bound `userId`): it reports "no
devices found" and terminates with `NEXT` at every page number. -/
theorem empty_fetch_spec :
    (∀ (f ps : Nat) (env : Env) (users0 : List StUser),
      env.db.fails "userReadMany" = false →
      env.db.users.take ps = [] →
      listUsersLoop (f + 1) env 1 ps true users0 =
        ({ env with out := env.out ++ [.storeCall "userReadMany" 1,
            .print "no users found"] }, .REPEAT, none)) ∧
    (∀ (f pn ps : Nat) (env : Env) (users0 : List StUser) (rest : List String),
      pn ≠ 1 →
      env.db.fails "userReadMany" = false →
      (env.db.users.drop (ps * (pn - 1))).take ps = [] →
      env.inputs = "q" :: rest →
      listUsersLoop (f + 1) env pn ps true users0 =
        ({ env with
            inputs := rest,
            out := env.out ++ [.storeCall "userReadMany" (Int.ofNat pn),
              .print "no more users found", .render [],
              .prompt "Select user by number or scroll with n(ext)/p(revious)/q(uit): "] },
          .REPEAT, none)) ∧
    (∀ (R : RouterOps) (userId : Int) (f pn ps : Nat) (env : Env)
        (slots0 : List StSlot) (entries : List BwEntry),
      env.db.fails "slotReadManyByUserId" = false →
      ((env.db.slots.filter (fun s => s.UserId == userId)).drop (ps * (pn - 1))).take ps = [] →
      R.getBwControlEntriesByList [] = .ok entries →
      listSlotsLoop R userId (f + 1) env pn ps true slots0 =
        ({ env with out := env.out ++ [.storeCall "slotReadManyByUserId" userId,
            .print "no slots found"] }, .NEXT, none)) ∧
    (∀ (userId : Int) (f pn ps : Nat) (env : Env) (devices0 : List StDevice),
      env.db.fails "deviceReadMany" = false →
      (env.db.devices.drop (ps * (pn - 1))).take ps = [] →
      listDevicesLoop userId false (f + 1) env pn ps true devices0 =
        ({ env with out := env.out ++ [.storeCall "deviceReadMany" (Int.ofNat pn),
            .print "no devices found"] }, .NEXT, none)) ∧
    (∀ (userId : Int) (f pn ps : Nat) (env : Env) (devices0 : List StDevice),
      userId ≠ 0 →
      env.db.fails "deviceReadManyByUserId" = false →
      ((env.db.devices.filter (fun d => d.UserId == userId)).drop
        (ps * (pn - 1))).take ps = [] →
      listDevicesLoop userId true (f + 1) env pn ps true devices0 =
        ({ env with out := env.out ++ [.storeCall "deviceReadManyByUserId" userId,
            .print "no devices found"] }, .NEXT, none)) := by
  refine ⟨?_, ?_, ?_, ?_, ?_⟩
  · intro f ps env users0 hfail hpage
    obtain ⟨ctx, db, inputs, out⟩ := env
    simp only [DBState.fails] at hfail
    have hm : "userReadMany" ∉ db.failOps := by simpa using hfail
    simp [listUsersLoop, UserStore.ReadMany, DBState.fails, hm, Env.emit, Env.print,
      hpage]
  · intro f pn ps env users0 rest hpn hfail hpage hin
    obtain ⟨ctx, db, inputs, out⟩ := env
    simp only [DBState.fails] at hfail
    have hm : "userReadMany" ∉ db.failOps := by simpa using hfail
    simp only at hin
    subst hin
    simp [listUsersLoop, UserStore.ReadMany, DBState.fails, hm, Env.emit, Env.print,
      Env.render, Env.prompt, GetInput, hpage, hpn]
  · intro R userId f pn ps env slots0 entries hfail hpage hentries
    obtain ⟨ctx, db, inputs, out⟩ := env
    simp only [DBState.fails] at hfail
    have hm : "slotReadManyByUserId" ∉ db.failOps := by simpa using hfail
    simp [listSlotsLoop, SlotStore.ReadManyByUserId, DBState.fails, hm, Env.emit,
      Env.print, hpage, hentries]
  · intro userId f pn ps env devices0 hfail hpage
    obtain ⟨ctx, db, inputs, out⟩ := env
    simp only [DBState.fails] at hfail
    have hm : "deviceReadMany" ∉ db.failOps := by simpa using hfail
    simp [listDevicesLoop, DeviceStore.ReadMany, DBState.fails, hm, Env.emit,
      Env.print, hpage]
  · intro userId f pn ps env devices0 hid hfail hpage
    obtain ⟨ctx, db, inputs, out⟩ := env
    simp only [DBState.fails] at hfail
    have hm : "deviceReadManyByUserId" ∉ db.failOps := by simpa using hfail
    simp [listDevicesLoop, DeviceStore.ReadManyByUserId, DBState.fails, hm, Env.emit,
      Env.print, hpage, hid]

/-- Witness for C7 at concrete inputs: the users screen with three stored
users, at page 2 (empty fetch), reports "no more users found", renders the
empty page, prompts again and only ends on the operator's `q`; the slots
screen of `c7Env`'s store terminates with `NEXT` on the empty page-2 fetch;
and the devices screen over an empty device table reports "no devices found"
and terminates with `NEXT`. -/
theorem empty_fetch_spec_witness :
    (listUsersLoop 3 c7EnvUsers 2 5 true [] =
      ({ c7EnvUsers with
          inputs := [],
          out := c7EnvUsers.out ++ [.storeCall "userReadMany" 2,
            .print "no more users found", .render [],
            .prompt "Select user by number or scroll with n(ext)/p(revious)/q(uit): "] },
        .REPEAT, none)) ∧
    (listSlotsLoop routerOne 1 3 ⟨⟨[("userId", 1)]⟩, c7Db, [], []⟩ 2 5 true [] =
      ({ (⟨⟨[("userId", 1)]⟩, c7Db, [], []⟩ : Env) with
        out := [.storeCall "slotReadManyByUserId" 1, .print "no slots found"] },
        .NEXT, none)) ∧
    (listDevicesLoop 0 false 3 c7EnvDev 2 5 true [] =
      ({ c7EnvDev with
        out := [.storeCall "deviceReadMany" 2, .print "no devices found"] },
        .NEXT, none)) ∧
    (listDevicesLoop 1 true 3 c7EnvDev 2 5 true [] =
      ({ c7EnvDev with
        out := [.storeCall "deviceReadManyByUserId" 1, .print "no devices found"] },
        .NEXT, none)) := by
  refine ⟨?_, ?_, ?_, ?_⟩
  · exact empty_fetch_spec.2.1 2 2 5 c7EnvUsers [] [] (by decide) (by decide)
      (by decide) rfl
  · exact empty_fetch_spec.2.2.1 routerOne 1 2 2 5 ⟨⟨[("userId", 1)]⟩, c7Db, [], []⟩ [] []
      (by decide) (by decide) rfl
  · exact empty_fetch_spec.2.2.2.1 0 2 2 5 c7EnvDev [] (by decide) (by decide)
  · exact empty_fetch_spec.2.2.2.2 1 2 2 5 c7EnvDev [] (by decide) (by decide) (by decide)

/-! ### Helper lemmas: collaborator calls that only touch the trace -/

theorem userStoreRead_fst (env : Env) (id : Int) :
    (UserStore.Read env id).1 = env.emit (.storeCall "userRead" id) := by
  simp only [UserStore.Read]
  split
  · rfl
  · split <;> rfl

theorem buildDeviceRows_state (ds : List StDevice) :
    ∀ env : Env, (buildDeviceRows env ds).1.ctx = env.ctx ∧
      (buildDeviceRows env ds).1.db = env.db ∧
      (buildDeviceRows env ds).1.inputs = env.inputs := by
  induction ds with
  | nil => intro env; exact ⟨rfl, rfl, rfl⟩
  | cons d rest ih =>
    intro env
    have hfst := userStoreRead_fst env d.UserId
    rcases hr : UserStore.Read env d.UserId with ⟨env1, res⟩
    rw [hr] at hfst
    simp only at hfst
    cases res with
    | error e =>
      have hrec := ih env1
      simp only [buildDeviceRows, hr]
      simpa [hfst, Env.emit] using hrec
    | ok u =>
      have hrec := ih env1
      simp only [buildDeviceRows, hr]
      simpa [hfst, Env.emit] using hrec

theorem printSlots_state (R : RouterOps) (slots : List BwSlot) :
    ∀ (env : Env) (i : Nat), (printSlots R env slots i).1.ctx = env.ctx ∧
      (printSlots R env slots i).1.db = env.db ∧
      (printSlots R env slots i).1.inputs = env.inputs := by
  induction slots with
  | nil => intro env i; exact ⟨rfl, rfl, rfl⟩
  | cons s rest ih =>
    intro env i
    cases hc : R.getCapacity s with
    | error e => simp [printSlots, hc]
    | ok c =>
      have hrec := ih (env.print (toString (i + 1) ++ ": " ++ s.MinAddress ++ " - " ++
        s.MaxAddress ++ " [" ++ toString c ++ "]")) (i + 1)
      simp only [printSlots, hc]
      simpa [Env.print, Env.emit] using hrec

theorem buildConnectedRows_state (deviceMap : List StDevice) (sts : List ClientStat) :
    ∀ env : Env, (buildConnectedRows deviceMap env sts).1.ctx = env.ctx ∧
      (buildConnectedRows deviceMap env sts).1.db = env.db ∧
      (buildConnectedRows deviceMap env sts).1.inputs = env.inputs := by
  induction sts with
  | nil => intro env; exact ⟨rfl, rfl, rfl⟩
  | cons st rest ih =>
    intro env
    cases hd : deviceMap.reverse.find? (fun d => d.Mac == st.Mac) with
    | none =>
      have hrec := ih env
      simp only [buildConnectedRows, hd]
      simpa using hrec
    | some device =>
      have hfst := userStoreRead_fst env device.UserId
      rcases hr : UserStore.Read env device.UserId with ⟨env1, res⟩
      rw [hr] at hfst
      simp only at hfst
      cases res with
      | error e =>
        have hrec := ih env1
        simp only [buildConnectedRows, hd, hr]
        simpa [hfst, Env.emit] using hrec
      | ok u =>
        have hrec := ih env1
        simp only [buildConnectedRows, hd, hr]
        simpa [hfst, Env.emit] using hrec

/-! ### Claim C8 -/

/-- Claim C8: in every paginated list screen, entering `n` when the last
fetched page had fewer rows than the page size, or `p` at page 1, leaves
`pageNumber` unchanged and triggers no new fetch: (u1) `n` right after a
rendered partial users page continues at the same page with
`showList = false`; (u2)/(u3) `n` on a short page and `p` at page 1 from the
no-refetch state append only a message and a prompt — no store call — and
continue at the same page, still with `showList = false`; (s1)-(s3) the same
for the user-bandwidth-slots screen; (d1)-(d3) the same for the devices
screen (whose no-refetch message is the source's "no more users found", line
612); (a1)-(a3) the same for the assign-bandwidth-slot available-slots screen;
(c1)-(c3) the same for the connected-devices screen, whose statistics are
fetched once before the loop so the loop never fetches at all; the final
conjunct checks that the appended message-and-prompt events contain no store
call. -/
theorem pagination_no_advance_spec :
    (∀ (f pn ps : Nat) (env : Env) (users0 users : List StUser) (rest : List String),
      env.inputs = "n" :: rest →
      env.db.fails "userReadMany" = false →
      (env.db.users.drop (ps * (pn - 1))).take ps = users →
      users ≠ [] →
      users.length < ps →
      listUsersLoop (f + 1) env pn ps true users0 =
        listUsersLoop f
          ({ env with
              inputs := rest,
              out := env.out ++ [.storeCall "userReadMany" (Int.ofNat pn),
                .render (users.map (fun u => [u.Name])),
                .prompt "Select user by number or scroll with n(ext)/p(revious)/q(uit): "] })
          pn ps false users) ∧
    (∀ (f pn ps : Nat) (env : Env) (users : List StUser) (rest : List String),
      env.inputs = "n" :: rest →
      users.length < ps →
      listUsersLoop (f + 1) env pn ps false users =
        listUsersLoop f
          ({ env with
              inputs := rest,
              out := env.out ++ [.print "no more users found",
                .prompt "Select user by number or scroll with n(ext)/p(revious)/q(uit): "] })
          pn ps false users) ∧
    (∀ (f ps : Nat) (env : Env) (users : List StUser) (rest : List String),
      env.inputs = "p" :: rest →
      listUsersLoop (f + 1) env 1 ps false users =
        listUsersLoop f
          ({ env with
              inputs := rest,
              out := env.out ++ [.print "no more users found",
                .prompt "Select user by number or scroll with n(ext)/p(revious)/q(uit): "] })
          1 ps false users) ∧
    (∀ (R : RouterOps) (userId : Int) (f pn ps : Nat) (env : Env)
        (slots0 slots : List StSlot) (entries : List BwEntry) (rest : List String),
      env.inputs = "n" :: rest →
      env.db.fails "slotReadManyByUserId" = false →
      ((env.db.slots.filter (fun s => s.UserId == userId)).drop (ps * (pn - 1))).take ps
        = slots →
      R.getBwControlEntriesByList (slots.map (fun s => s.RemoteId)) = .ok entries →
      slots ≠ [] →
      slots.length < ps →
      listSlotsLoop R userId (f + 1) env pn ps true slots0 =
        listSlotsLoop R userId f
          ({ env with
              inputs := rest,
              out := env.out ++ [.storeCall "slotReadManyByUserId" userId,
                .render (entries.map (fun e =>
                  [e.StartIp ++ " - " ++ e.EndIp ++ " Up:" ++ toString e.UpMin ++ "/" ++
                    toString e.UpMax ++ " Down:" ++ toString e.DownMin ++ "/" ++
                    toString e.DownMax ++ " [" ++ toString e.Enabled ++ "]"])),
                .prompt "Select slot by number or scroll with n(ext)/p(revious)/q(uit): "] })
          pn ps false slots) ∧
    (∀ (R : RouterOps) (userId : Int) (f pn ps : Nat) (env : Env)
        (slots : List StSlot) (rest : List String),
      env.inputs = "n" :: rest →
      slots.length < ps →
      listSlotsLoop R userId (f + 1) env pn ps false slots =
        listSlotsLoop R userId f
          ({ env with
              inputs := rest,
              out := env.out ++ [.print "no more slots found",
                .prompt "Select slot by number or scroll with n(ext)/p(revious)/q(uit): "] })
          pn ps false slots) ∧
    (∀ (R : RouterOps) (userId : Int) (f ps : Nat) (env : Env)
        (slots : List StSlot) (rest : List String),
      env.inputs = "p" :: rest →
      listSlotsLoop R userId (f + 1) env 1 ps false slots =
        listSlotsLoop R userId f
          ({ env with
              inputs := rest,
              out := env.out ++ [.print "no more slots found",
                .prompt "Select slot by number or scroll with n(ext)/p(revious)/q(uit): "] })
          1 ps false slots) ∧
    (∀ (userId : Int) (f pn ps : Nat) (env envB : Env)
        (devices0 devices : List StDevice) (rows : List (List String))
        (rest : List String),
      env.inputs = "n" :: rest →
      env.db.fails "deviceReadMany" = false →
      (env.db.devices.drop (ps * (pn - 1))).take ps = devices →
      devices ≠ [] →
      devices.length < ps →
      buildDeviceRows (env.emit (.storeCall "deviceReadMany" (Int.ofNat pn))) devices
        = (envB, rows) →
      listDevicesLoop userId false (f + 1) env pn ps true devices0 =
        listDevicesLoop userId false f
          ({ envB with
              inputs := rest,
              out := envB.out ++ [.render rows,
                .prompt "Select device by number or scroll with n(ext)/p(revious)/q(uit): "] })
          pn ps false devices) ∧
    (∀ (userId : Int) (uip : Bool) (f pn ps : Nat) (env : Env)
        (devices : List StDevice) (rest : List String),
      env.inputs = "n" :: rest →
      devices.length < ps →
      listDevicesLoop userId uip (f + 1) env pn ps false devices =
        listDevicesLoop userId uip f
          ({ env with
              inputs := rest,
              out := env.out ++ [.print "no more users found",
                .prompt "Select device by number or scroll with n(ext)/p(revious)/q(uit): "] })
          pn ps false devices) ∧
    (∀ (userId : Int) (uip : Bool) (f ps : Nat) (env : Env)
        (devices : List StDevice) (rest : List String),
      env.inputs = "p" :: rest →
      listDevicesLoop userId uip (f + 1) env 1 ps false devices =
        listDevicesLoop userId uip f
          ({ env with
              inputs := rest,
              out := env.out ++ [.print "no more users found",
                .prompt "Select device by number or scroll with n(ext)/p(revious)/q(uit): "] })
          1 ps false devices) ∧
    (∀ (R : RouterOps) (userId : Int) (u : Bool) (f pn ps : Nat) (env envP : Env)
        (slots0 slots : List BwSlot) (rest : List String),
      env.inputs = "n" :: rest →
      R.getAvailableBandwidthSlots u = .ok slots →
      slots ≠ [] →
      slots.length < ps →
      printSlots R env slots 0 = (envP, none) →
      assignSlotLoop R userId u (f + 1) env pn ps true slots0 =
        assignSlotLoop R userId u f
          ({ envP with
              inputs := rest,
              out := envP.out ++
                [.prompt "Select slot by number or scroll with n(ext)/p(revious)/q(uit): "] })
          pn ps false slots) ∧
    (∀ (R : RouterOps) (userId : Int) (u : Bool) (f pn ps : Nat) (env : Env)
        (slots : List BwSlot) (rest : List String),
      env.inputs = "n" :: rest →
      slots.length < ps →
      assignSlotLoop R userId u (f + 1) env pn ps false slots =
        assignSlotLoop R userId u f
          ({ env with
              inputs := rest,
              out := env.out ++ [.print "no more slots found",
                .prompt "Select slot by number or scroll with n(ext)/p(revious)/q(uit): "] })
          pn ps false slots) ∧
    (∀ (R : RouterOps) (userId : Int) (u : Bool) (f ps : Nat) (env : Env)
        (slots : List BwSlot) (rest : List String),
      env.inputs = "p" :: rest →
      assignSlotLoop R userId u (f + 1) env 1 ps false slots =
        assignSlotLoop R userId u f
          ({ env with
              inputs := rest,
              out := env.out ++ [.print "no more slots found",
                .prompt "Select slot by number or scroll with n(ext)/p(revious)/q(uit): "] })
          1 ps false slots) ∧
    (∀ (f pn ps : Nat) (env envB : Env) (stats : List ClientStat)
        (deviceMap : List StDevice) (rows : List (List String)) (rest : List String),
      env.inputs = "n" :: rest →
      stats ≠ [] →
      stats.length < ps →
      buildConnectedRows deviceMap env stats = (envB, rows) →
      connectedLoop stats deviceMap (f + 1) env pn ps true =
        connectedLoop stats deviceMap f
          ({ envB with
              inputs := rest,
              out := envB.out ++ [.render rows,
                .prompt "Scroll with n(ext)/p(revious)/q(uit): "] })
          pn ps false) ∧
    (∀ (f pn ps : Nat) (env : Env) (stats : List ClientStat)
        (deviceMap : List StDevice) (rest : List String),
      env.inputs = "n" :: rest →
      stats.length < ps →
      connectedLoop stats deviceMap (f + 1) env pn ps false =
        connectedLoop stats deviceMap f
          ({ env with
              inputs := rest,
              out := env.out ++ [.print "No more devices found",
                .prompt "Scroll with n(ext)/p(revious)/q(uit): "] })
          pn ps false) ∧
    (∀ (f ps : Nat) (env : Env) (stats : List ClientStat)
        (deviceMap : List StDevice) (rest : List String),
      env.inputs = "p" :: rest →
      connectedLoop stats deviceMap (f + 1) env 1 ps false =
        connectedLoop stats deviceMap f
          ({ env with
              inputs := rest,
              out := env.out ++ [.print "No more devices found",
                .prompt "Scroll with n(ext)/p(revious)/q(uit): "] })
          1 ps false) ∧
    (∀ (op : String) (arg : Int) (m1 m2 : String),
      Event.storeCall op arg ∉ ([.print m1, .prompt m2] : List Event)) := by
  refine ⟨?_, ?_, ?_, ?_, ?_, ?_, ?_, ?_, ?_, ?_, ?_, ?_, ?_, ?_, ?_, ?_⟩
  · intro f pn ps env users0 users rest hin hfail hpage hne hlen
    obtain ⟨ctx, db, inputs, out⟩ := env
    simp only at hin
    subst hin
    have hm : "userReadMany" ∉ db.failOps := by
      simp only [DBState.fails] at hfail
      simpa using hfail
    have hne2 : users.length ≠ ps := Nat.ne_of_lt hlen
    simp [listUsersLoop, UserStore.ReadMany, DBState.fails, hm, Env.emit, Env.print,
      Env.render, Env.prompt, GetInput, hpage, hne, hne2]
  · intro f pn ps env users rest hin hlen
    obtain ⟨ctx, db, inputs, out⟩ := env
    simp only at hin
    subst hin
    have hne2 : users.length ≠ ps := Nat.ne_of_lt hlen
    simp [listUsersLoop, Env.emit, Env.print, Env.prompt, GetInput, hne2]
  · intro f ps env users rest hin
    obtain ⟨ctx, db, inputs, out⟩ := env
    simp only at hin
    subst hin
    simp [listUsersLoop, Env.emit, Env.print, Env.prompt, GetInput]
  · intro R userId f pn ps env slots0 slots entries rest hin hfail hpage hentries hne hlen
    obtain ⟨ctx, db, inputs, out⟩ := env
    simp only at hin
    subst hin
    have hm : "slotReadManyByUserId" ∉ db.failOps := by
      simp only [DBState.fails] at hfail
      simpa using hfail
    have hne2 : slots.length ≠ ps := Nat.ne_of_lt hlen
    simp [listSlotsLoop, SlotStore.ReadManyByUserId, DBState.fails, hm, Env.emit,
      Env.print, Env.render, Env.prompt, GetInput, hpage, hentries, hne, hne2]
  · intro R userId f pn ps env slots rest hin hlen
    obtain ⟨ctx, db, inputs, out⟩ := env
    simp only at hin
    subst hin
    have hne2 : slots.length ≠ ps := Nat.ne_of_lt hlen
    simp [listSlotsLoop, Env.emit, Env.print, Env.prompt, GetInput, hne2]
  · intro R userId f ps env slots rest hin
    obtain ⟨ctx, db, inputs, out⟩ := env
    simp only at hin
    subst hin
    simp [listSlotsLoop, Env.emit, Env.print, Env.prompt, GetInput]
  · intro userId f pn ps env envB devices0 devices rows rest hin hfail hpage hne
      hlen hrows
    obtain ⟨ctx, db, inputs, out⟩ := env
    simp only at hin
    subst hin
    have hm : "deviceReadMany" ∉ db.failOps := by
      simp only [DBState.fails] at hfail
      simpa using hfail
    simp only [Env.emit, Int.ofNat_eq_natCast] at hrows
    have hstate := buildDeviceRows_state devices
      ⟨ctx, db, "n" :: rest, out ++ [Event.storeCall "deviceReadMany" (pn : Int)]⟩
    rw [hrows] at hstate
    obtain ⟨hctxB, hdbB, hinB⟩ := hstate
    simp only at hctxB hdbB hinB
    obtain ⟨ctxB, dbB, inputsB, outB⟩ := envB
    simp only at hinB
    subst hinB
    have hne2 : devices.length ≠ ps := Nat.ne_of_lt hlen
    simp [listDevicesLoop, DeviceStore.ReadMany, DBState.fails, hm, Env.emit,
      Env.print, Env.render, Env.prompt, GetInput, hpage, hne, hrows, hne2]
  · intro userId uip f pn ps env devices rest hin hlen
    obtain ⟨ctx, db, inputs, out⟩ := env
    simp only at hin
    subst hin
    have hne2 : devices.length ≠ ps := Nat.ne_of_lt hlen
    simp [listDevicesLoop, Env.emit, Env.print, Env.prompt, GetInput, hne2]
  · intro userId uip f ps env devices rest hin
    obtain ⟨ctx, db, inputs, out⟩ := env
    simp only at hin
    subst hin
    simp [listDevicesLoop, Env.emit, Env.print, Env.prompt, GetInput]
  · intro R userId u f pn ps env envP slots0 slots rest hin hslots hne hlen hps
    have hstate := printSlots_state R slots env 0
    rw [hps] at hstate
    obtain ⟨hctxP, hdbP, hinP⟩ := hstate
    obtain ⟨ctx, db, inputs, out⟩ := env
    simp only at hin
    subst hin
    obtain ⟨ctxP, dbP, inputsP, outP⟩ := envP
    simp only at hinP
    subst hinP
    have hne2 : slots.length ≠ ps := Nat.ne_of_lt hlen
    simp [assignSlotLoop, Env.emit, Env.print, Env.prompt, GetInput, hslots, hne,
      hps, hne2]
  · intro R userId u f pn ps env slots rest hin hlen
    obtain ⟨ctx, db, inputs, out⟩ := env
    simp only at hin
    subst hin
    have hne2 : slots.length ≠ ps := Nat.ne_of_lt hlen
    simp [assignSlotLoop, Env.emit, Env.print, Env.prompt, GetInput, hne2]
  · intro R userId u f ps env slots rest hin
    obtain ⟨ctx, db, inputs, out⟩ := env
    simp only at hin
    subst hin
    simp [assignSlotLoop, Env.emit, Env.print, Env.prompt, GetInput]
  · intro f pn ps env envB stats deviceMap rows rest hin hne hlen hrows
    have hstate := buildConnectedRows_state deviceMap stats env
    rw [hrows] at hstate
    obtain ⟨hctxB, hdbB, hinB⟩ := hstate
    obtain ⟨ctx, db, inputs, out⟩ := env
    simp only at hin
    subst hin
    obtain ⟨ctxB, dbB, inputsB, outB⟩ := envB
    simp only at hinB
    subst hinB
    have hne2 : stats.length ≠ ps := Nat.ne_of_lt hlen
    simp [connectedLoop, Env.emit, Env.print, Env.render, Env.prompt, GetInput,
      hne, hrows, hne2]
  · intro f pn ps env stats deviceMap rest hin hlen
    obtain ⟨ctx, db, inputs, out⟩ := env
    simp only at hin
    subst hin
    have hne2 : stats.length ≠ ps := Nat.ne_of_lt hlen
    simp [connectedLoop, Env.emit, Env.print, Env.prompt, GetInput, hne2]
  · intro f ps env stats deviceMap rest hin
    obtain ⟨ctx, db, inputs, out⟩ := env
    simp only at hin
    subst hin
    simp [connectedLoop, Env.emit, Env.print, Env.prompt, GetInput]
  · intro op arg m1 m2
    simp

/-- Witness for C8 at concrete inputs: `n` after the rendered 3-row users
page (page size 5) re-prompts at page 1 with no second fetch; `p` at page 1
of the slots screen, `p` at page 1 of the devices screen, `n` on the one-slot
assign-slot page and `n` on the one-statistic connected-devices screen all
re-prompt at the same page with no fetch. -/
theorem pagination_no_advance_spec_witness :
    (listUsersLoop 3 c8Env 1 5 true [] =
      listUsersLoop 2
        ({ c8Env with
            inputs := [],
            out := c8Env.out ++ [.storeCall "userReadMany" 1,
              .render [["alice"], ["bob"], ["carol"]],
              .prompt "Select user by number or scroll with n(ext)/p(revious)/q(uit): "] })
        1 5 false dbThreeUsers.users) ∧
    (listSlotsLoop routerOne 1 3 c8EnvSlots 1 5 false [⟨21, 1, 31⟩] =
      listSlotsLoop routerOne 1 2
        ({ c8EnvSlots with
            inputs := [],
            out := c8EnvSlots.out ++ [.print "no more slots found",
              .prompt "Select slot by number or scroll with n(ext)/p(revious)/q(uit): "] })
        1 5 false [⟨21, 1, 31⟩]) ∧
    (listDevicesLoop 0 false 3 c8EnvDev 1 5 false c5Db.devices =
      listDevicesLoop 0 false 2
        ({ c8EnvDev with
            inputs := [],
            out := c8EnvDev.out ++ [.print "no more users found",
              .prompt "Select device by number or scroll with n(ext)/p(revious)/q(uit): "] })
        1 5 false c5Db.devices) ∧
    (assignSlotLoop routerOne 1 true 3 c8EnvAssign 1 5 false [slotA] =
      assignSlotLoop routerOne 1 true 2
        ({ c8EnvAssign with
            inputs := [],
            out := c8EnvAssign.out ++ [.print "no more slots found",
              .prompt "Select slot by number or scroll with n(ext)/p(revious)/q(uit): "] })
        1 5 false [slotA]) ∧
    (connectedLoop [statOne] [] 3 c8EnvConn 1 5 false =
      connectedLoop [statOne] [] 2
        ({ c8EnvConn with
            inputs := [],
            out := c8EnvConn.out ++ [.print "No more devices found",
              .prompt "Scroll with n(ext)/p(revious)/q(uit): "] })
        1 5 false) ∧
    Event.storeCall "userReadMany" 1 ∉
      ([.print "no more users found",
        .prompt "Select user by number or scroll with n(ext)/p(revious)/q(uit): "] : List Event) := by
  refine ⟨?_, ?_, ?_, ?_, ?_, ?_⟩
  · exact pagination_no_advance_spec.1 2 1 5 c8Env [] dbThreeUsers.users [] rfl
      (by decide) (by decide) (by decide) (by decide)
  · exact pagination_no_advance_spec.2.2.2.2.2.1 routerOne 1 2 5 c8EnvSlots
      [⟨21, 1, 31⟩] [] rfl
  · exact pagination_no_advance_spec.2.2.2.2.2.2.2.2.1 0 false 2 5 c8EnvDev
      c5Db.devices [] rfl
  · exact pagination_no_advance_spec.2.2.2.2.2.2.2.2.2.2.1 routerOne 1 true 2 1 5
      c8EnvAssign [slotA] [] rfl (by decide)
  · exact pagination_no_advance_spec.2.2.2.2.2.2.2.2.2.2.2.2.2.1 2 1 5 c8EnvConn
      [statOne] [] [] rfl (by decide)
  · exact pagination_no_advance_spec.2.2.2.2.2.2.2.2.2.2.2.2.2.2.2 "userReadMany" 1
      "no more users found" "Select user by number or scroll with n(ext)/p(revious)/q(uit): "

/-! ### Claim C6 -/

/-- Claim C6 (refuting evidence): the claim says every paginated list screen
handles an out-of-range row token locally and never returns an error for it;
but `ActionAssignSlot` (actions.go lines 384-387) answers an invalid row
choice with `return NEXT, fmt.Errorf("invalid choice")`: against a one-slot
page, the token `7` makes the whole behavior return a fatal non-nil error
(the context is still left unchanged). -/
theorem assignSlot_invalid_choice_fatal :
    (ActionAssignSlotBody routerOne 5 c6Env).2 = (.NEXT, some (.msg "invalid choice")) ∧
    (ActionAssignSlotBody routerOne 5 c6Env).1.ctx = c6Env.ctx := by
  decide

/-- Claim C6 (amended): in the users, user-bandwidth-slots and devices
screens a row token that is non-numeric or out of `[1, page length]` is
handled locally — the screen prints "invalid choice. try again", suppresses
the re-fetch (`showList = false`), re-prompts in the same loop at the same
page, returns no error for it, and leaves the context unchanged (the
continuation differs from the entry state only in consumed input and trace).
In the assign-slot screen the same condition is NOT handled locally: the
behavior returns `(NEXT, error "invalid choice")`. -/
theorem invalid_row_selection_spec :
    (∀ (f pn ps : Nat) (env : Env) (users0 users : List StUser) (tok : String)
        (rest : List String),
      env.inputs = tok :: rest →
      env.db.fails "userReadMany" = false →
      (env.db.users.drop (ps * (pn - 1))).take ps = users →
      users ≠ [] →
      tok ≠ "n" → tok ≠ "p" → tok ≠ "q" →
      GetChoice tok users.length = .error .invalidChoice →
      listUsersLoop (f + 1) env pn ps true users0 =
        listUsersLoop f
          ({ env with
              inputs := rest,
              out := env.out ++ [.storeCall "userReadMany" (Int.ofNat pn),
                .render (users.map (fun u => [u.Name])),
                .prompt "Select user by number or scroll with n(ext)/p(revious)/q(uit): ",
                .print "invalid choice. try again"] })
          pn ps false users) ∧
    (∀ (R : RouterOps) (userId : Int) (f pn ps : Nat) (env : Env)
        (slots0 slots : List StSlot) (entries : List BwEntry) (tok : String)
        (rest : List String),
      env.inputs = tok :: rest →
      env.db.fails "slotReadManyByUserId" = false →
      ((env.db.slots.filter (fun s => s.UserId == userId)).drop (ps * (pn - 1))).take ps
        = slots →
      R.getBwControlEntriesByList (slots.map (fun s => s.RemoteId)) = .ok entries →
      slots ≠ [] →
      tok ≠ "n" → tok ≠ "p" → tok ≠ "q" →
      GetChoice tok slots.length = .error .invalidChoice →
      listSlotsLoop R userId (f + 1) env pn ps true slots0 =
        listSlotsLoop R userId f
          ({ env with
              inputs := rest,
              out := env.out ++ [.storeCall "slotReadManyByUserId" userId,
                .render (entries.map (fun e =>
                  [e.StartIp ++ " - " ++ e.EndIp ++ " Up:" ++ toString e.UpMin ++ "/" ++
                    toString e.UpMax ++ " Down:" ++ toString e.DownMin ++ "/" ++
                    toString e.DownMax ++ " [" ++ toString e.Enabled ++ "]"])),
                .prompt "Select slot by number or scroll with n(ext)/p(revious)/q(uit): ",
                .print "invalid choice. try again"] })
          pn ps false slots) ∧
    (∀ (userId : Int) (f pn ps : Nat) (env envB : Env)
        (devices0 devices : List StDevice) (rows : List (List String)) (tok : String)
        (rest : List String),
      env.inputs = tok :: rest →
      env.db.fails "deviceReadMany" = false →
      (env.db.devices.drop (ps * (pn - 1))).take ps = devices →
      devices ≠ [] →
      buildDeviceRows (env.emit (.storeCall "deviceReadMany" (Int.ofNat pn))) devices
        = (envB, rows) →
      tok ≠ "n" → tok ≠ "p" → tok ≠ "q" →
      GetChoice tok devices.length = .error .invalidChoice →
      listDevicesLoop userId false (f + 1) env pn ps true devices0 =
        listDevicesLoop userId false f
          ({ envB with
              inputs := rest,
              out := envB.out ++ [.render rows,
                .prompt "Select device by number or scroll with n(ext)/p(revious)/q(uit): ",
                .print "invalid choice. try again"] })
          pn ps false devices) ∧
    (∀ (R : RouterOps) (userId : Int) (u : Bool) (f pn ps : Nat) (env envP : Env)
        (slots0 slots : List BwSlot) (tok : String) (rest : List String),
      env.inputs = tok :: rest →
      R.getAvailableBandwidthSlots u = .ok slots →
      slots ≠ [] →
      printSlots R env slots 0 = (envP, none) →
      tok ≠ "n" → tok ≠ "p" → tok ≠ "q" →
      GetChoice tok slots.length = .error .invalidChoice →
      assignSlotLoop R userId u (f + 1) env pn ps true slots0 =
        ({ envP with
            inputs := rest,
            out := envP.out ++
              [.prompt "Select slot by number or scroll with n(ext)/p(revious)/q(uit): "] },
          .NEXT, some (.msg "invalid choice"))) := by
  refine ⟨?_, ?_, ?_, ?_⟩
  · intro f pn ps env users0 users tok rest hin hfail hpage hne htn htp htq hbad
    obtain ⟨ctx, db, inputs, out⟩ := env
    simp only at hin
    subst hin
    have hm : "userReadMany" ∉ db.failOps := by
      simp only [DBState.fails] at hfail
      simpa using hfail
    simp [listUsersLoop, UserStore.ReadMany, DBState.fails, hm, Env.emit, Env.print,
      Env.render, Env.prompt, GetInput, hpage, hne, htn, htp, htq, hbad]
  · intro R userId f pn ps env slots0 slots entries tok rest hin hfail hpage hentries
      hne htn htp htq hbad
    obtain ⟨ctx, db, inputs, out⟩ := env
    simp only at hin
    subst hin
    have hm : "slotReadManyByUserId" ∉ db.failOps := by
      simp only [DBState.fails] at hfail
      simpa using hfail
    simp [listSlotsLoop, SlotStore.ReadManyByUserId, DBState.fails, hm, Env.emit,
      Env.print, Env.render, Env.prompt, GetInput, hpage, hentries, hne, htn, htp,
      htq, hbad]
  · intro userId f pn ps env envB devices0 devices rows tok rest hin hfail hpage hne
      hrows htn htp htq hbad
    obtain ⟨ctx, db, inputs, out⟩ := env
    simp only at hin
    subst hin
    have hm : "deviceReadMany" ∉ db.failOps := by
      simp only [DBState.fails] at hfail
      simpa using hfail
    simp only [Env.emit, Int.ofNat_eq_natCast] at hrows
    have hstate := buildDeviceRows_state devices
      ⟨ctx, db, tok :: rest, out ++ [Event.storeCall "deviceReadMany" (pn : Int)]⟩
    rw [hrows] at hstate
    obtain ⟨hctxB, hdbB, hinB⟩ := hstate
    simp only at hctxB hdbB hinB
    obtain ⟨ctxB, dbB, inputsB, outB⟩ := envB
    simp only at hinB
    subst hinB
    simp [listDevicesLoop, DeviceStore.ReadMany, DBState.fails, hm, Env.emit,
      Env.print, Env.render, Env.prompt, GetInput, hpage, hne, hrows, htn, htp,
      htq, hbad]
  · intro R userId u f pn ps env envP slots0 slots tok rest hin hslots hne hps htn
      htp htq hbad
    have hstate := printSlots_state R slots env 0
    rw [hps] at hstate
    obtain ⟨hctxP, hdbP, hinP⟩ := hstate
    obtain ⟨ctx, db, inputs, out⟩ := env
    simp only at hin
    subst hin
    obtain ⟨ctxP, dbP, inputsP, outP⟩ := envP
    simp only at hinP
    subst hinP
    simp [assignSlotLoop, Env.emit, Env.print, Env.prompt, GetInput, hslots, hne,
      hps, htn, htp, htq, hbad]

/-- Witness for C6 at concrete inputs: the users screen shown its 3-row page
and fed the non-numeric token `x` reports and loops locally; the assign-slot
selection loop fed the out-of-range token `7` against the one-slot page
returns the fatal invalid-choice error. -/
theorem invalid_row_selection_spec_witness :
    (listUsersLoop 3 c6EnvU 1 5 true [] =
      listUsersLoop 2
        ({ c6EnvU with
            inputs := [],
            out := c6EnvU.out ++ [.storeCall "userReadMany" 1,
              .render [["alice"], ["bob"], ["carol"]],
              .prompt "Select user by number or scroll with n(ext)/p(revious)/q(uit): ",
              .print "invalid choice. try again"] })
        1 5 false dbThreeUsers.users) ∧
    (assignSlotLoop routerOne 1 true 3 c6EnvLoop 1 5 true [] =
      ({ (c6EnvLoop.print "1: 192.168.0.10 - 192.168.0.20 [5]") with
          inputs := [],
          out := (c6EnvLoop.print "1: 192.168.0.10 - 192.168.0.20 [5]").out ++
            [.prompt "Select slot by number or scroll with n(ext)/p(revious)/q(uit): "] },
        .NEXT, some (.msg "invalid choice"))) := by
  constructor
  · exact invalid_row_selection_spec.1 2 1 5 c6EnvU [] dbThreeUsers.users "x" [] rfl
      (by decide) (by decide) (by decide) (by decide) (by decide) (by decide) rfl
  · exact invalid_row_selection_spec.2.2.2 routerOne 1 true 2 1 5 c6EnvLoop
      (c6EnvLoop.print "1: 192.168.0.10 - 192.168.0.20 [5]") [] [slotA] "7" [] rfl
      rfl (by decide) (by decide) (by decide) (by decide) (by decide) rfl

/-! ### Claim C5 -/

/-- Claim C5 (refuting evidence): the claim says every paginated list screen
re-confirms a selected entity's existence via a point read before binding its
id.  But the devices screen (actions.go lines 637-647) binds `deviceId` and
returns `NEXT` straight from the selection: in this run the last trace event
is the selection prompt itself — no store call of any kind, in particular no
device point read, happens between reading the row token and returning with
`deviceId` bound. -/
theorem devices_select_no_point_read :
    (ActionListDevicesBody 3 c5Env).2 = (.NEXT, none) ∧
    (ActionListDevicesBody 3 c5Env).1.ctx.lookup "deviceId" = some 7 ∧
    (ActionListDevicesBody 3 c5Env).1.out.getLast? =
      some (.prompt "Select device by number or scroll with n(ext)/p(revious)/q(uit): ") := by
  decide

/-- Claim C5 (amended): a valid row selection extracts the row's entity id,
binds it under the screen-specific key and returns `NEXT` in all three
selection screens; the users and user-bandwidth-slots screens additionally
re-confirm the entity's existence via a point read (`userRead` / `slotRead`,
visible in the trace before the bind and gating it), while the devices screen
binds `deviceId` with no point read at all — its trace gains nothing after
the prompt. -/
theorem row_selection_spec :
    (∀ (f pn ps : Nat) (env : Env) (users0 users : List StUser) (tok : String)
        (rest : List String) (pos : Nat) (u0 : StUser),
      env.inputs = tok :: rest →
      env.db.fails "userReadMany" = false →
      (env.db.users.drop (ps * (pn - 1))).take ps = users →
      users ≠ [] →
      tok ≠ "n" → tok ≠ "p" → tok ≠ "q" →
      GetChoice tok users.length = .ok pos →
      env.db.fails "userRead" = false →
      env.db.users.find? (fun x => x.Id == (users.getD pos ⟨0, ""⟩).Id) = some u0 →
      listUsersLoop (f + 1) env pn ps true users0 =
        ({ env with
            inputs := rest,
            ctx := env.ctx.set "userId" (users.getD pos ⟨0, ""⟩).Id,
            out := env.out ++ [.storeCall "userReadMany" (Int.ofNat pn),
              .render (users.map (fun u => [u.Name])),
              .prompt "Select user by number or scroll with n(ext)/p(revious)/q(uit): ",
              .print ("Selected user " ++ (users.getD pos ⟨0, ""⟩).Name),
              .storeCall "userRead" (users.getD pos ⟨0, ""⟩).Id] }, .NEXT, none)) ∧
    (∀ (R : RouterOps) (userId : Int) (f pn ps : Nat) (env : Env)
        (slots0 slots : List StSlot) (entries : List BwEntry) (tok : String)
        (rest : List String) (pos : Nat) (s0 : StSlot),
      env.inputs = tok :: rest →
      env.db.fails "slotReadManyByUserId" = false →
      ((env.db.slots.filter (fun s => s.UserId == userId)).drop (ps * (pn - 1))).take ps
        = slots →
      R.getBwControlEntriesByList (slots.map (fun s => s.RemoteId)) = .ok entries →
      slots ≠ [] →
      tok ≠ "n" → tok ≠ "p" → tok ≠ "q" →
      GetChoice tok slots.length = .ok pos →
      env.db.fails "slotRead" = false →
      env.db.slots.find? (fun x => x.Id == (slots.getD pos ⟨0, 0, 0⟩).Id) = some s0 →
      listSlotsLoop R userId (f + 1) env pn ps true slots0 =
        ({ env with
            inputs := rest,
            ctx := env.ctx.set "slotId" (slots.getD pos ⟨0, 0, 0⟩).Id,
            out := env.out ++ [.storeCall "slotReadManyByUserId" userId,
              .render (entries.map (fun e =>
                [e.StartIp ++ " - " ++ e.EndIp ++ " Up:" ++ toString e.UpMin ++ "/" ++
                  toString e.UpMax ++ " Down:" ++ toString e.DownMin ++ "/" ++
                  toString e.DownMax ++ " [" ++ toString e.Enabled ++ "]"])),
              .prompt "Select slot by number or scroll with n(ext)/p(revious)/q(uit): ",
              .storeCall "slotRead" (slots.getD pos ⟨0, 0, 0⟩).Id] }, .NEXT, none)) ∧
    (∀ (userId : Int) (f pn ps : Nat) (env envB : Env)
        (devices0 devices : List StDevice) (rows : List (List String)) (tok : String)
        (rest : List String) (pos : Nat),
      env.inputs = tok :: rest →
      env.db.fails "deviceReadMany" = false →
      (env.db.devices.drop (ps * (pn - 1))).take ps = devices →
      devices ≠ [] →
      buildDeviceRows (env.emit (.storeCall "deviceReadMany" (Int.ofNat pn))) devices
        = (envB, rows) →
      tok ≠ "n" → tok ≠ "p" → tok ≠ "q" →
      GetChoice tok devices.length = .ok pos →
      listDevicesLoop userId false (f + 1) env pn ps true devices0 =
        ({ envB with
            inputs := rest,
            ctx := envB.ctx.set "deviceId" (devices.getD pos ⟨0, 0, "", ""⟩).Id,
            out := envB.out ++ [.render rows,
              .prompt "Select device by number or scroll with n(ext)/p(revious)/q(uit): "] },
          .NEXT, none)) := by
  refine ⟨?_, ?_, ?_⟩
  · intro f pn ps env users0 users tok rest pos u0 hin hfail hpage hne htn htp htq
      hsel hrfail hfound
    obtain ⟨ctx, db, inputs, out⟩ := env
    simp only at hin
    subst hin
    have hm : "userReadMany" ∉ db.failOps := by
      simp only [DBState.fails] at hfail
      simpa using hfail
    have hm2 : "userRead" ∉ db.failOps := by
      simp only [DBState.fails] at hrfail
      simpa using hrfail
    simp only [List.getD_eq_getElem?_getD] at hfound
    simp [listUsersLoop, UserStore.ReadMany, UserStore.Read, DBState.fails, hm, hm2,
      Env.emit, Env.print, Env.render, Env.prompt, GetInput, hpage, hne, htn, htp,
      htq, hsel, hfound]
  · intro R userId f pn ps env slots0 slots entries tok rest pos s0 hin hfail hpage
      hentries hne htn htp htq hsel hrfail hfound
    obtain ⟨ctx, db, inputs, out⟩ := env
    simp only at hin
    subst hin
    have hm : "slotReadManyByUserId" ∉ db.failOps := by
      simp only [DBState.fails] at hfail
      simpa using hfail
    have hm2 : "slotRead" ∉ db.failOps := by
      simp only [DBState.fails] at hrfail
      simpa using hrfail
    simp only [List.getD_eq_getElem?_getD] at hfound
    simp [listSlotsLoop, SlotStore.ReadManyByUserId, SlotStore.Read, DBState.fails,
      hm, hm2, Env.emit, Env.print, Env.render, Env.prompt, GetInput, hpage,
      hentries, hne, htn, htp, htq, hsel, hfound]
  · intro userId f pn ps env envB devices0 devices rows tok rest pos hin hfail hpage
      hne hrows htn htp htq hsel
    obtain ⟨ctx, db, inputs, out⟩ := env
    simp only at hin
    subst hin
    have hm : "deviceReadMany" ∉ db.failOps := by
      simp only [DBState.fails] at hfail
      simpa using hfail
    simp only [Env.emit, Int.ofNat_eq_natCast] at hrows
    have hstate := buildDeviceRows_state devices
      ⟨ctx, db, tok :: rest, out ++ [Event.storeCall "deviceReadMany" (pn : Int)]⟩
    rw [hrows] at hstate
    obtain ⟨hctxB, hdbB, hinB⟩ := hstate
    simp only at hctxB hdbB hinB
    obtain ⟨ctxB, dbB, inputsB, outB⟩ := envB
    simp only at hinB
    subst hinB
    simp [listDevicesLoop, DeviceStore.ReadMany, DBState.fails, hm, Env.emit,
      Env.print, Env.render, Env.prompt, GetInput, hpage, hne, hrows, htn, htp,
      htq, hsel]

/-- Witness for C5 at concrete inputs: selecting row 2 of the users page
point-reads user 2 and binds `userId = 2` with `NEXT`; selecting row 1 of the
devices page binds `deviceId = 7` with `NEXT` and no point read after the
prompt. -/
theorem row_selection_spec_witness :
    (listUsersLoop 3 c5EnvU 1 5 true [] =
      ({ c5EnvU with
          inputs := [],
          ctx := Context.set ⟨[]⟩ "userId" 2,
          out := c5EnvU.out ++ [.storeCall "userReadMany" 1,
            .render [["alice"], ["bob"], ["carol"]],
            .prompt "Select user by number or scroll with n(ext)/p(revious)/q(uit): ",
            .print "Selected user bob",
            .storeCall "userRead" 2] }, .NEXT, none)) ∧
    (listDevicesLoop 0 false 3 c5Env 1 5 true [] =
      ({ (⟨⟨[]⟩, c5Db, ["1"],
            [.storeCall "deviceReadMany" 1, .storeCall "userRead" 1]⟩ : Env) with
          inputs := [],
          ctx := Context.set ⟨[]⟩ "deviceId" 7,
          out := [.storeCall "deviceReadMany" 1, .storeCall "userRead" 1,
            .render [["AA:BB:CC:DD:EE:FF", "lap\t\talice"]],
            .prompt "Select device by number or scroll with n(ext)/p(revious)/q(uit): "] },
        .NEXT, none)) := by
  constructor
  · exact row_selection_spec.1 2 1 5 c5EnvU [] dbThreeUsers.users "2" [] 1 ⟨2, "bob"⟩
      rfl (by decide) (by decide) (by decide) (by decide) (by decide) (by decide)
      rfl (by decide) rfl
  · exact row_selection_spec.2.2 0 2 1 5 c5Env
      ⟨⟨[]⟩, c5Db, ["1"], [.storeCall "deviceReadMany" 1, .storeCall "userRead" 1]⟩
      [] c5Db.devices [["AA:BB:CC:DD:EE:FF", "lap\t\talice"]] "1" [] 0
      rfl (by decide) (by decide) (by decide) rfl (by decide) (by decide) (by decide) rfl

/-! ### Claim C9 -/

/-- Claim C9: in `ActionAssignSlot`, a start IP that passes IPv4 validation
but whose numeric value is below the selected slot's minimum address makes
the behavior print "Given start IP is below range. Try again" and return
`(REPEAT, nil)` — a re-prompt outcome, not a fatal error (actions.go lines
410-413). -/
theorem assignSlot_below_range_spec
    (R : RouterOps) (f : Nat) (env : Env) (userId : Int) (s : BwSlot) (cap : Int)
    (rowTok ipTok : String) (rest : List String) (a m : Nat)
    (hctx : env.ctx.lookup "userId" = some userId)
    (hin : env.inputs = "y" :: rowTok :: ipTok :: rest)
    (hslots : R.getAvailableBandwidthSlots true = .ok [s])
    (hcap : R.getCapacity s = .ok cap)
    (htn : rowTok ≠ "n") (htp : rowTok ≠ "p") (htq : rowTok ≠ "q")
    (hsel : GetChoice rowTok 1 = .ok 0)
    (hip : ipTok ≠ "")
    (hvalid : R.isValidIPv4 ipTok = true)
    (ha : R.ip2Int ipTok = .ok a)
    (hmin : R.ip2Int s.MinAddress = .ok m)
    (hlt : a < m) :
    ActionAssignSlotBody R (f + 1) env =
      ({ env with
          inputs := rest,
          out := env.out ++ [.prompt "Use DHCP IP bounds (y/n): ",
            .print ("1: " ++ s.MinAddress ++ " - " ++ s.MaxAddress ++ " [" ++
              toString cap ++ "]"),
            .prompt "Select slot by number or scroll with n(ext)/p(revious)/q(uit): ",
            .prompt ("Enter start IP [" ++ s.MinAddress ++ "]: "),
            .print "Given start IP is below range. Try again"] },
        .REPEAT, none) := by
  obtain ⟨ctx, db, inputs, out⟩ := env
  simp only at hin hctx
  subst hin
  have hy : (["y", "n"] : List String).contains "y" = true := by decide
  have hnlt : ¬ m ≤ a := by omega
  have ht1 : (toString (1 : Nat)) = "1" := rfl
  simp [ActionAssignSlotBody, hctx, assignBounds, GetCharChoice, hy, assignSlotLoop,
    printSlots, Env.emit, Env.print, Env.prompt, GetInput, hslots, hcap, htn, htp,
    htq, hsel, hip, hvalid, ha, hmin, hlt, hnlt, ht1]

/-- Witness for C9 at concrete inputs: start IP `192.168.0.5` (valid IPv4,
value 5) against slot `192.168.0.10 - 192.168.0.20` (minimum 10) yields the
below-range message and `(REPEAT, nil)`. -/
theorem assignSlot_below_range_spec_witness :
    ActionAssignSlotBody routerOne 3 c9Env =
      ({ c9Env with
          inputs := [],
          out := c9Env.out ++ [.prompt "Use DHCP IP bounds (y/n): ",
            .print ("1: 192.168.0.10 - 192.168.0.20 [5]"),
            .prompt "Select slot by number or scroll with n(ext)/p(revious)/q(uit): ",
            .prompt ("Enter start IP [192.168.0.10]: "),
            .print "Given start IP is below range. Try again"] },
        .REPEAT, none) :=
  assignSlot_below_range_spec routerOne 2 c9Env 1 slotA 5 "1" "192.168.0.5" [] 5 10
    rfl rfl rfl rfl (by decide) (by decide) (by decide) rfl (by decide) rfl rfl rfl
    (by decide)

/-! ### Claim C10 -/

/-- Claim C10: (1) in `ActionAssignSlot` a non-empty start IP failing IPv4
validation returns `REPEAT` together with a NON-nil error (actions.go lines
399-401); (2) the interpreter checks the behavior's error before inspecting
its `Navigation` (actions.go lines 1060-1064), so any behavior result with a
non-nil error — whatever its navigation value — makes the enclosing
`RunMenuActions` loop return that error immediately, terminating the
interpreter call; (3) by contrast a `REPEAT` with nil error (the below-range
case) continues the same loop, re-prompting. -/
theorem invalid_ip_fatal_spec :
    (∀ (R : RouterOps) (f : Nat) (env : Env) (userId : Int) (s : BwSlot) (cap : Int)
        (rowTok ipTok : String) (rest : List String),
      env.ctx.lookup "userId" = some userId →
      env.inputs = "y" :: rowTok :: ipTok :: rest →
      R.getAvailableBandwidthSlots true = .ok [s] →
      R.getCapacity s = .ok cap →
      rowTok ≠ "n" → rowTok ≠ "p" → rowTok ≠ "q" →
      GetChoice rowTok 1 = .ok 0 →
      ipTok ≠ "" →
      R.isValidIPv4 ipTok = false →
      ActionAssignSlotBody R (f + 1) env =
        ({ env with
            inputs := rest,
            out := env.out ++ [.prompt "Use DHCP IP bounds (y/n): ",
              .print ("1: " ++ s.MinAddress ++ " - " ++ s.MaxAddress ++ " [" ++
                toString cap ++ "]"),
              .prompt "Select slot by number or scroll with n(ext)/p(revious)/q(uit): ",
              .prompt ("Enter start IP [" ++ s.MinAddress ++ "]: ")] },
          .REPEAT, some (.msg "invalid IPv4 address"))) ∧
    (∀ (f : Nat) (env env2 : Env) (options tok : String) (rest : List String)
        (actions : List Action) (choice : Nat) (b : ActionFunc) (nav : Navigation)
        (e : Err),
      env.inputs = tok :: rest →
      GetChoiceInput tok actions.length = .ok choice →
      choice ≠ ExitChoice → choice ≠ QuitChoice →
      (actions.getD choice dummyAction).isQuit = false →
      (actions.getD choice dummyAction).action = some b →
      b ({ env with
            inputs := rest,
            out := env.out ++
              [.prompt ("Choose an action: \n" ++ options ++ "\nChoice: ")] })
        = (env2, nav, some e) →
      runLoop (f + 1) env options actions = (env2, .NEXT, some e)) ∧
    (∀ (f : Nat) (env env2 : Env) (options tok : String) (rest : List String)
        (actions : List Action) (choice : Nat) (b : ActionFunc),
      env.inputs = tok :: rest →
      GetChoiceInput tok actions.length = .ok choice →
      choice ≠ ExitChoice → choice ≠ QuitChoice →
      (actions.getD choice dummyAction).isQuit = false →
      (actions.getD choice dummyAction).action = some b →
      b ({ env with
            inputs := rest,
            out := env.out ++
              [.prompt ("Choose an action: \n" ++ options ++ "\nChoice: ")] })
        = (env2, .REPEAT, none) →
      runLoop (f + 1) env options actions = runLoop f env2 options actions) := by
  refine ⟨?_, ?_, ?_⟩
  · intro R f env userId s cap rowTok ipTok rest hctx hin hslots hcap htn htp htq
      hsel hip hvalid
    obtain ⟨ctx, db, inputs, out⟩ := env
    simp only at hin hctx
    subst hin
    have hy : (["y", "n"] : List String).contains "y" = true := by decide
    have ht1 : (toString (1 : Nat)) = "1" := rfl
    simp [ActionAssignSlotBody, hctx, assignBounds, GetCharChoice, hy, assignSlotLoop,
      printSlots, Env.emit, Env.print, Env.prompt, GetInput, hslots, hcap, htn, htp,
      htq, hsel, hip, hvalid, ht1]
  · intro f env env2 options tok rest actions choice b nav e hin hgci hne hnq hquit
      hact hb
    obtain ⟨ctx, db, inputs, out⟩ := env
    simp only at hin
    subst hin
    simp only [List.getD_eq_getElem?_getD] at hquit hact
    simp only at hb
    cases nav <;>
      simp [runLoop, Env.emit, Env.prompt, GetInput, hgci, hne, hnq, hquit, hact, hb]
  · intro f env env2 options tok rest actions choice b hin hgci hne hnq hquit hact hb
    obtain ⟨ctx, db, inputs, out⟩ := env
    simp only at hin
    subst hin
    simp only [List.getD_eq_getElem?_getD] at hquit hact
    simp only at hb
    simp [runLoop, Env.emit, Env.prompt, GetInput, hgci, hne, hnq, hquit, hact, hb]

/-- Witness for C10 at concrete inputs: the malformed start IP `nonsense`
makes the assign-slot behavior return `REPEAT` with the invalid-IPv4 error;
a menu whose chosen entry's behavior returns `(REPEAT, error)` makes the
interpreter loop return that error at once; the same menu with a
`(REPEAT, nil)` behavior continues the loop. -/
theorem invalid_ip_fatal_spec_witness :
    (ActionAssignSlotBody routerOne 3 c10EnvIP =
      ({ c10EnvIP with
          inputs := [],
          out := c10EnvIP.out ++ [.prompt "Use DHCP IP bounds (y/n): ",
            .print ("1: 192.168.0.10 - 192.168.0.20 [5]"),
            .prompt "Select slot by number or scroll with n(ext)/p(revious)/q(uit): ",
            .prompt ("Enter start IP [192.168.0.10]: ")] },
        .REPEAT, some (.msg "invalid IPv4 address"))) ∧
    (runLoop 2 c10Env "1: Assign bandwidth slot\n" [c10Action] =
      ({ c10Env with
          inputs := [],
          out := c10Env.out ++
            [.prompt ("Choose an action: \n1: Assign bandwidth slot\n\nChoice: ")] },
        .NEXT, some (.msg "invalid IPv4 address"))) ∧
    (runLoop 2 c10Env "1: Assign bandwidth slot\n" [c10ActionR] =
      runLoop 1
        ({ c10Env with
            inputs := [],
            out := c10Env.out ++
              [.prompt ("Choose an action: \n1: Assign bandwidth slot\n\nChoice: ")] })
        "1: Assign bandwidth slot\n" [c10ActionR]) := by
  refine ⟨?_, ?_, ?_⟩
  · exact invalid_ip_fatal_spec.1 routerOne 2 c10EnvIP 1 slotA 5 "1" "nonsense" []
      rfl rfl rfl rfl (by decide) (by decide) (by decide) rfl (by decide) rfl
  · exact invalid_ip_fatal_spec.2.1 1 c10Env _ "1: Assign bandwidth slot\n" "1" []
      [c10Action] 0 (fun env => (env, .REPEAT, some (.msg "invalid IPv4 address")))
      .REPEAT (.msg "invalid IPv4 address") rfl rfl (by decide) (by decide) rfl rfl rfl
  · exact invalid_ip_fatal_spec.2.2 1 c10Env _ "1: Assign bandwidth slot\n" "1" []
      [c10ActionR] 0 (fun env => (env, .REPEAT, none)) rfl rfl (by decide) (by decide)
      rfl rfl rfl

end Routerman

/-! ### Claim C1 -/

namespace Routerman

theorem notin_append {x : Event} (l1 l2 : List Event) (h1 : x ∉ l1) (h2 : x ∉ l2) :
    x ∉ l1 ++ l2 := by
  intro h
  rcases List.mem_append.mp h with h | h
  · exact h1 h
  · exact h2 h

theorem inv_compose (pre : List Event) {out envPout : List Event} {env2 : Env}
    (hshape : envPout = out ++ pre)
    (hpre : Event.setQuit ∉ pre)
    (h : (QuitProgram env2.ctx = false ∧ ∃ d, env2.out = envPout ++ d ∧ Event.setQuit ∉ d) ∨
         (QuitProgram env2.ctx = true ∧
           ∃ d, env2.out = envPout ++ (d ++ [Event.setQuit]) ∧ Event.setQuit ∉ d)) :
    (QuitProgram env2.ctx = false ∧ ∃ d, env2.out = out ++ d ∧ Event.setQuit ∉ d) ∨
    (QuitProgram env2.ctx = true ∧
      ∃ d, env2.out = out ++ (d ++ [Event.setQuit]) ∧ Event.setQuit ∉ d) := by
  subst hshape
  rcases h with ⟨hf, d, hout, hnin⟩ | ⟨ht, d, hout, hnin⟩
  · exact Or.inl ⟨hf, pre ++ d, by simp [hout], notin_append pre d hpre hnin⟩
  · exact Or.inr ⟨ht, pre ++ d, by simp [hout], notin_append pre d hpre hnin⟩

theorem getD_mem_of_lt {α : Type} (l : List α) (i : Nat) (d : α) (h : i < l.length) :
    l.getD i d ∈ l := by
  rw [List.getD_eq_getElem?_getD, List.getElem?_eq_getElem h]
  simp

theorem GoodAction.behavior_ok {a : Action} (h : GoodAction a) {b : ActionFunc}
    (hb : a.action = some b) : BehaviorOK b := by
  cases h with
  | mk name children req beh isQ hbeh hch =>
    simp only [Action.action] at hb
    exact hbeh b hb

theorem GoodAction.children_ok {a : Action} (h : GoodAction a) :
    ∀ c ∈ a.children, GoodAction c := by
  cases h with
  | mk name children req beh isQ hbeh hch =>
    simpa [Action.children] using hch

theorem getChoiceInput_ok_lt {tok : String} {n choice : Nat}
    (h : GetChoiceInput tok n = .ok choice) (h1 : choice ≠ ExitChoice)
    (h2 : choice ≠ QuitChoice) : choice < n := by
  unfold GetChoiceInput at h
  split at h
  · simp only [Except.ok.injEq] at h
    exact absurd h.symm h1
  · split at h
    · simp only [Except.ok.injEq] at h
      exact absurd h.symm h2
    · split at h
      · simp at h
      · split at h
        · simp only [Except.ok.injEq] at h
          subst h
          omega
        · simp at h

set_option maxHeartbeats 1000000

theorem runLoop_quit_inv : ∀ (f : Nat) (actions : List Action),
    (∀ a ∈ actions, GoodAction a) →
    ∀ (env : Env) (options : String) (env2 : Env) (nav : Navigation) (err : Option Err),
    QuitProgram env.ctx = false →
    runLoop f env options actions = (env2, nav, err) →
    (QuitProgram env2.ctx = false ∧ ∃ d, env2.out = env.out ++ d ∧ Event.setQuit ∉ d) ∨
    (QuitProgram env2.ctx = true ∧
      ∃ d, env2.out = env.out ++ (d ++ [Event.setQuit]) ∧ Event.setQuit ∉ d) := by
  intro f
  induction f with
  | zero =>
    intro actions hgood env options env2 nav err hq hrun
    simp only [runLoop, Prod.mk.injEq] at hrun
    obtain ⟨h1, h2, h3⟩ := hrun
    subst h1
    exact Or.inl ⟨hq, [], by simp, by simp⟩
  | succ f ih =>
    intro actions hgood env options env2 nav err hq hrun
    obtain ⟨ctx, db, inputs, out⟩ := env
    simp only at hq
    cases inputs with
    | nil =>
      simp only [runLoop, GetInput, Env.prompt, Env.emit, Prod.mk.injEq] at hrun
      obtain ⟨h1, h2, h3⟩ := hrun
      subst h1
      exact Or.inl ⟨hq, [.prompt ("Choose an action: \n" ++ options ++ "\nChoice: ")], rfl, by simp⟩
    | cons tok rest =>
      simp only [runLoop, GetInput, Env.prompt, Env.emit, Env.print] at hrun
      split at hrun
      next e heq =>
        -- invalid parse: either loop again or return the error
        split at hrun
        · exact inv_compose
            [.prompt ("Choose an action: \n" ++ options ++ "\nChoice: "), .print "try again"]
            (by simp) (by simp)
            (ih actions hgood _ options env2 nav err hq hrun)
        · simp only [Prod.mk.injEq] at hrun
          obtain ⟨h1, h2, h3⟩ := hrun
          subst h1
          exact Or.inl ⟨hq, [.prompt ("Choose an action: \n" ++ options ++ "\nChoice: ")],
            rfl, by simp⟩
      next choice heq =>
        split at hrun
        · -- ExitChoice
          simp only [Prod.mk.injEq] at hrun
          obtain ⟨h1, h2, h3⟩ := hrun
          subst h1
          exact Or.inl ⟨hq, [.prompt ("Choose an action: \n" ++ options ++ "\nChoice: ")],
            rfl, by simp⟩
        · split at hrun
          · -- QuitChoice
            simp only [Prod.mk.injEq] at hrun
            obtain ⟨h1, h2, h3⟩ := hrun
            subst h1
            exact Or.inr ⟨quitProgram_set_quit ctx,
              [.prompt ("Choose an action: \n" ++ options ++ "\nChoice: ")], by simp, by simp⟩
          · split at hrun
            · -- chosen node is the Quit node
              simp only [Prod.mk.injEq] at hrun
              obtain ⟨h1, h2, h3⟩ := hrun
              subst h1
              exact Or.inr ⟨quitProgram_set_quit ctx,
                [.prompt ("Choose an action: \n" ++ options ++ "\nChoice: ")], by simp, by simp⟩
            · -- a real node
              next hexit hquitc hisq =>
              have hlt := getChoiceInput_ok_lt heq hexit hquitc
              have hgA : GoodAction (actions.getD choice dummyAction) :=
                hgood _ (getD_mem_of_lt actions choice dummyAction hlt)
              split at hrun
              next r hstep =>
                -- the behavior returned early (error, or BACK with nil error)
                subst hrun
                split at hstep
                · exact absurd hstep (by simp)
                · next b hab =>
                  have hbok := GoodAction.behavior_ok hgA hab
                  split at hstep
                  · next envB navB e heqb =>
                    obtain ⟨hqB, dB, houtB, hninB⟩ := hbok
                      ⟨ctx, db, rest, out ++ [Event.prompt ("Choose an action: \n" ++ options ++ "\nChoice: ")]⟩
                    rw [heqb] at hqB houtB
                    rw [hq] at hqB
                    simp only [StepRes.ret.injEq, Prod.mk.injEq] at hstep
                    obtain ⟨h1, h2, h3⟩ := hstep
                    subst h1
                    refine Or.inl ⟨hqB,
                      Event.prompt ("Choose an action: \n" ++ options ++ "\nChoice: ") :: dB, ?_, ?_⟩
                    · rw [show envB.out = (out ++
                        [Event.prompt ("Choose an action: \n" ++ options ++ "\nChoice: ")]) ++ dB from houtB]
                      simp
                    · exact notin_append
                        [Event.prompt ("Choose an action: \n" ++ options ++ "\nChoice: ")] dB
                        (by simp) hninB
                  · next envB heqb =>
                    obtain ⟨hqB, dB, houtB, hninB⟩ := hbok
                      ⟨ctx, db, rest, out ++ [Event.prompt ("Choose an action: \n" ++ options ++ "\nChoice: ")]⟩
                    rw [heqb] at hqB houtB
                    rw [hq] at hqB
                    simp only [StepRes.ret.injEq, Prod.mk.injEq] at hstep
                    obtain ⟨h1, h2, h3⟩ := hstep
                    subst h1
                    refine Or.inl ⟨hqB,
                      Event.prompt ("Choose an action: \n" ++ options ++ "\nChoice: ") :: dB, ?_, ?_⟩
                    · rw [show envB.out = (out ++
                        [Event.prompt ("Choose an action: \n" ++ options ++ "\nChoice: ")]) ++ dB from houtB]
                      simp
                    · exact notin_append
                        [Event.prompt ("Choose an action: \n" ++ options ++ "\nChoice: ")] dB
                        (by simp) hninB
                  · next envB heqb => exact absurd hstep (by simp)
                  · next envB heqb => exact absurd hstep (by simp)
              next envB hstep =>
                -- the behavior asked to repeat the same level
                have hfacts : QuitProgram envB.ctx = false ∧
                    ∃ dpre, envB.out = out ++
                      (Event.prompt ("Choose an action: \n" ++ options ++ "\nChoice: ") :: dpre) ∧
                      Event.setQuit ∉ dpre := by
                  split at hstep
                  · exact absurd hstep (by simp)
                  · next b hab =>
                    have hbok := GoodAction.behavior_ok hgA hab
                    split at hstep
                    · exact absurd hstep (by simp)
                    · exact absurd hstep (by simp)
                    · next envC heqb =>
                      simp only [StepRes.repeatLoop.injEq] at hstep
                      subst hstep
                      obtain ⟨hqB, dB, houtB, hninB⟩ := hbok
                        ⟨ctx, db, rest, out ++ [Event.prompt ("Choose an action: \n" ++ options ++ "\nChoice: ")]⟩
                      rw [heqb] at hqB houtB
                      simp only at hqB houtB
                      rw [hq] at hqB
                      exact ⟨hqB, dB, by simpa using houtB, hninB⟩
                    · exact absurd hstep (by simp)
                obtain ⟨hqB, dpre, houtB, hninpre⟩ := hfacts
                exact inv_compose
                  (Event.prompt ("Choose an action: \n" ++ options ++ "\nChoice: ") :: dpre)
                  houtB (by simp [hninpre])
                  (ih actions hgood envB options env2 nav err hqB hrun)
              next envB hstep =>
                -- fall through into the valid children
                have hfacts : QuitProgram envB.ctx = false ∧
                    ∃ dpre, envB.out = out ++
                      (Event.prompt ("Choose an action: \n" ++ options ++ "\nChoice: ") :: dpre) ∧
                      Event.setQuit ∉ dpre := by
                  split at hstep
                  · simp only [StepRes.fallthrough.injEq] at hstep
                    subst hstep
                    exact ⟨hq, [], by simp, by simp⟩
                  · next b hab =>
                    have hbok := GoodAction.behavior_ok hgA hab
                    split at hstep
                    · exact absurd hstep (by simp)
                    · exact absurd hstep (by simp)
                    · exact absurd hstep (by simp)
                    · next envC heqb =>
                      simp only [StepRes.fallthrough.injEq] at hstep
                      subst hstep
                      obtain ⟨hqB, dB, houtB, hninB⟩ := hbok
                        ⟨ctx, db, rest, out ++ [Event.prompt ("Choose an action: \n" ++ options ++ "\nChoice: ")]⟩
                      rw [heqb] at hqB houtB
                      simp only at hqB houtB
                      rw [hq] at hqB
                      exact ⟨hqB, dB, by simpa using houtB, hninB⟩
                obtain ⟨hqB, dpre, houtB, hninpre⟩ := hfacts
                split at hrun
                · -- no valid children: continue the loop
                  exact inv_compose
                    (Event.prompt ("Choose an action: \n" ++ options ++ "\nChoice: ") :: dpre)
                    houtB (by simp [hninpre])
                    (ih actions hgood envB options env2 nav err hqB hrun)
                · -- recurse into the children
                  rcases hrec : runLoop f envB
                    (buildOptions (Action.GetValidChildren (actions.getD choice dummyAction) envB.ctx))
                    (Action.GetValidChildren (actions.getD choice dummyAction) envB.ctx)
                    with ⟨env3, nav3, err3⟩
                  have hif : (if QuitProgram envB.ctx = true then (envB, Navigation.BACK, (none : Option Err))
                      else runLoop f envB
                        (buildOptions (Action.GetValidChildren (actions.getD choice dummyAction) envB.ctx))
                        (Action.GetValidChildren (actions.getD choice dummyAction) envB.ctx))
                      = (env3, nav3, err3) := by
                    rw [hqB]
                    simpa using hrec
                  rw [hif] at hrun
                  simp only at hrun
                  have hchgood : ∀ c ∈ Action.GetValidChildren (actions.getD choice dummyAction) envB.ctx,
                      GoodAction c := by
                    intro c hc
                    exact GoodAction.children_ok hgA c (List.mem_of_mem_filter hc)
                  rcases ih _ hchgood envB _ env3 nav3 err3 hqB hrec with
                    ⟨hq3, d3, hout3, hnin3⟩ | ⟨hq3, d3, hout3, hnin3⟩
                  · rw [if_neg (by simp [hq3])] at hrun
                    cases err3 with
                    | some e =>
                      simp only [Prod.mk.injEq] at hrun
                      obtain ⟨h1, h2, h3⟩ := hrun
                      subst h1
                      refine Or.inl ⟨hq3,
                        (Event.prompt ("Choose an action: \n" ++ options ++ "\nChoice: ") :: dpre) ++ d3,
                        ?_, ?_⟩
                      · simp [hout3, houtB]
                      · exact notin_append
                          (Event.prompt ("Choose an action: \n" ++ options ++ "\nChoice: ") :: dpre) d3
                          (by simp [hninpre]) hnin3
                    | none =>
                      split at hrun
                      · simp only [Prod.mk.injEq] at hrun
                        obtain ⟨h1, h2, h3⟩ := hrun
                        subst h1
                        refine Or.inl ⟨hq3,
                          (Event.prompt ("Choose an action: \n" ++ options ++ "\nChoice: ") :: dpre) ++ d3,
                          ?_, ?_⟩
                        · simp [hout3, houtB]
                        · exact notin_append
                            (Event.prompt ("Choose an action: \n" ++ options ++ "\nChoice: ") :: dpre) d3
                            (by simp [hninpre]) hnin3
                      · split at hrun
                        · simp only [Prod.mk.injEq] at hrun
                          obtain ⟨h1, h2, h3⟩ := hrun
                          subst h1
                          refine Or.inl ⟨hq3,
                            (Event.prompt ("Choose an action: \n" ++ options ++ "\nChoice: ") :: dpre) ++ d3,
                            ?_, ?_⟩
                          · simp [hout3, houtB]
                          · exact notin_append
                              (Event.prompt ("Choose an action: \n" ++ options ++ "\nChoice: ") :: dpre) d3
                              (by simp [hninpre]) hnin3
                        · exact inv_compose
                            ((Event.prompt ("Choose an action: \n" ++ options ++ "\nChoice: ") :: dpre) ++ d3)
                            (by simp [hout3, houtB])
                            (notin_append
                              (Event.prompt ("Choose an action: \n" ++ options ++ "\nChoice: ") :: dpre) d3
                              (by simp [hninpre]) hnin3)
                            (ih actions hgood env3 options env2 nav err hq3 hrun)
                  · rw [if_pos hq3] at hrun
                    simp only [Prod.mk.injEq] at hrun
                    obtain ⟨h1, h2, h3⟩ := hrun
                    subst h1
                    refine Or.inr ⟨hq3,
                      (Event.prompt ("Choose an action: \n" ++ options ++ "\nChoice: ") :: dpre) ++ d3,
                      ?_, ?_⟩
                    · simp [hout3, houtB]
                    · exact notin_append
                        (Event.prompt ("Choose an action: \n" ++ options ++ "\nChoice: ") :: dpre) d3
                        (by simp [hninpre]) hnin3

/-- Claim C1: if the quit flag is set (key "quit" bound to a value > 0),
`RunMenuActions` returns `BACK` immediately with the session state untouched —
no rendering, prompting or input consumption.  And for any tree of
quit-neutral behaviors (every behavior of this program is quit-neutral: only
the interpreter itself writes the quit flag, actions.go lines 1050 and 1056),
a call that starts with the flag clear and returns with the flag set has the
interpreter marker `setQuit` as the very last event of the whole run's trace:
once the flag was set at whatever nesting depth, every enclosing
`RunMenuActions` frame stopped its loop and returned without issuing one
further prompt or any other I/O. -/
theorem runMenuActions_quit_unwind (fuel : Nat) (env : Env) (actions : List Action) :
    (QuitProgram env.ctx = true → RunMenuActions fuel env actions = (env, .BACK, none)) ∧
    ((∀ a ∈ actions, GoodAction a) → QuitProgram env.ctx = false →
      ∀ (env2 : Env) (nav : Navigation) (err : Option Err),
      RunMenuActions fuel env actions = (env2, nav, err) →
      QuitProgram env2.ctx = true →
      ∃ d, env2.out = env.out ++ (d ++ [Event.setQuit]) ∧ Event.setQuit ∉ d) := by
  constructor
  · intro hq
    simp [RunMenuActions, hq]
  · intro hgood hq env2 nav err hrun hq2
    simp only [RunMenuActions, hq, Bool.false_eq_true, if_false] at hrun
    rcases runLoop_quit_inv fuel actions hgood env (buildOptions actions) env2 nav err hq hrun
      with ⟨hf, _⟩ | ⟨_, d, hout, hnin⟩
    · rw [hf] at hq2
      cases hq2
    · exact ⟨d, hout, hnin⟩

/-- Witness for C1 at concrete inputs: with the quit flag set the interpreter
returns `(BACK, nil)` leaving the session untouched; and the session that
answers `Q` at the first prompt ends with `setQuit` as the final trace
event. -/
theorem runMenuActions_quit_unwind_witness :
    RunMenuActions 1 c1EnvQuit [c1Action] = (c1EnvQuit, .BACK, none) ∧
    ∃ d, (RunMenuActions 1 c1Env [c1Action]).1.out =
      c1Env.out ++ (d ++ [Event.setQuit]) ∧ Event.setQuit ∉ d := by
  constructor
  · exact (runMenuActions_quit_unwind 1 c1EnvQuit [c1Action]).1 (by decide)
  · refine (runMenuActions_quit_unwind 1 c1Env [c1Action]).2 ?_ (by decide) _ _ _ rfl (by decide)
    intro a ha
    have : a = c1Action := by
      simpa using ha
    subst this
    exact GoodAction.mk "Manage users" [] [] none false
      (fun b hb => nomatch hb) (fun c hc => nomatch hc)

end Routerman
